import Mathlib

/-!
# vector_ops.cpp : the OpenCL dispatch pipeline

A shallow embedding of `src/vector_ops.cpp`.  The program is a straight-line
host driver around the OpenCL C API.  The embedding keeps

* the process-wide variables of the source (`SZ`, the host arrays, the device
  handles and the global `err`) as the fields of `State`;
* every call into OpenCL, the host heap, `fopen` and the clock as an `Event`
  appended to `State.trace`, in program order, with the arguments passed;
* every `printf` as an `Out` chunk appended to `State.stdout`, every `perror`
  as a message appended to `State.stderr`;
* `exit(n)` as the result `Res.exit n s`, which stops the run and keeps the
  state reached so far;
* a store through a pointer `malloc` returned unchecked, outside the block it
  granted, as the result `Res.fault s`: the behaviour of the C program is
  undefined from there, and the model says nothing of what follows.

What the OpenCL runtime, the file system, `malloc` and `rand` answer is not
part of the program: it is the parameter `Backend`, one answer per call site.
-/

namespace VectorOps

/-- An opaque OpenCL or host pointer value; `0` is `NULL`. -/
abbrev Handle := Nat

def CL_SUCCESS : Int := 0
def CL_DEVICE_NOT_FOUND : Int := -1

/-- The value of `sizeof(int)`. -/
def sizeof_int : Nat := 4

/-- The three global `cl_mem` variables. -/
inductive Buf where
  | bufV1 | bufV2 | bufV_out
  deriving DecidableEq, Repr

/-- The host pointers handed to `malloc` and `free`. -/
inductive HostPtr where
  | v1 | v2 | v_out | program_buffer | program_log
  deriving DecidableEq, Repr

inductive DevType where
  | CL_DEVICE_TYPE_GPU | CL_DEVICE_TYPE_CPU
  deriving DecidableEq, Repr

/-- The two reads of `high_resolution_clock::now()` in `main`. -/
inductive Checkpoint where
  | start | stop
  deriving DecidableEq, Repr

/-- What the `arg_value` pointer of `clSetKernelArg` points at. -/
inductive ArgVal where
  | SZ (v : Int)
  | mem (b : Buf) (h : Handle)
  deriving DecidableEq, Repr

/-- One call that leaves the program, with the arguments the source passes. -/
inductive Event where
  | malloc (p : HostPtr) (bytes : Nat)
  | free (p : HostPtr)
  | now (c : Checkpoint)
  | fopen (filename : String)
  | clGetPlatformIDs
  | clGetDeviceIDs (platform : Handle) (ty : DevType)
  | clCreateContext (dev : Handle)
  | clCreateProgramWithSource (ctx : Handle) (src : List Nat)
  | clBuildProgram (prog : Handle)
  | clGetProgramBuildInfo (prog dev : Handle) (size : Nat)
  | clCreateCommandQueue (ctx dev : Handle)
  | clCreateKernel (prog : Handle) (name : String)
  | clCreateBuffer (b : Buf) (ctx : Handle) (bytes : Nat)
  | clEnqueueWriteBuffer (queue : Handle) (b : Buf) (mem : Handle) (bytes : Nat) (src : HostPtr)
  | clEnqueueReadBuffer (queue : Handle) (b : Buf) (mem : Handle) (bytes : Nat) (dst : HostPtr)
  | clSetKernelArg (kernel : Handle) (idx : Nat) (size : Nat) (val : ArgVal)
  | clEnqueueNDRangeKernel (queue kernel : Handle) (work_dim : Nat) (global : Nat)
  | clWaitForEvents
  | clReleaseMemObject (b : Buf) (mem : Handle)
  | clReleaseKernel (kernel : Handle)
  | clReleaseCommandQueue (queue : Handle)
  | clReleaseProgram (prog : Handle)
  | clReleaseContext (ctx : Handle)
  deriving DecidableEq, Repr

/-- One `printf` call: the format string and what its conversion printed. -/
inductive Out where
  | lit (fmt : String)
  | d (fmt : String) (v : Int)
  | s (fmt : String) (bytes : List Nat)
  | f (fmt : String)
  deriving DecidableEq, Repr

/-- The process-wide variables of the source and the output streams. -/
structure State where
  SZ : Int
  v1 : List Int
  v2 : List Int
  v_out : List Int
  bufV1 : Handle
  bufV2 : Handle
  bufV_out : Handle
  device_id : Handle
  context : Handle
  program : Handle
  kernel : Handle
  queue : Handle
  err : Int
  rand_calls : Nat
  trace : List Event
  stdout : List Out
  stderr : List String
  deriving DecidableEq, Repr

/-- The answers of the environment, one per call site of the source.
`malloc p bytes` tells whether `malloc` grants the block of `bytes` bytes that
`init` asks for the host array `p`; `false` is the answer `NULL`. -/
structure Backend where
  size_t_bits : Nat
  sizeof_cl_mem : Nat
  rand : Nat → Nat
  malloc : HostPtr → Nat → Bool
  clGetPlatformIDs : Int × Handle
  clGetDeviceIDs : DevType → Int × Handle
  clCreateContext : Int × Handle
  fopen : String → Option (List Nat)
  clCreateProgramWithSource : Int × Handle
  clBuildProgram : Int
  build_log : List Nat
  clCreateCommandQueue : Int × Handle
  clCreateKernel : Int × Handle
  clCreateBuffer : Buf → Handle
  clEnqueueWriteBuffer : Buf → Int
  clSetKernelArg : Nat → Int
  clEnqueueNDRangeKernel : Int
  clWaitForEvents : Int
  clEnqueueReadBuffer : Int
  device_out : Nat → Int

/-- How a function of the program ends: it returns, the process exits, or a
store falls outside the block `malloc` granted and the behaviour is undefined
from there. -/
inductive Res (α : Type) where
  | ret (a : α) (s : State)
  | exit (status : Int) (s : State)
  | fault (s : State)
  deriving DecidableEq

/-- The state in which a function returned, the process exited or the
behaviour became undefined. -/
def Res.state {α : Type} : Res α → State
  | .ret _ s => s
  | .exit _ s => s
  | .fault s => s

/-- The exit status, when the process called `exit` inside the function. -/
def Res.status {α : Type} : Res α → Option Int
  | .ret _ _ => none
  | .exit c _ => some c
  | .fault _ => none

/-- Whether the function returned to its caller. -/
def Res.returned {α : Type} : Res α → Bool
  | .ret _ _ => true
  | _ => false

/-- Whether the run reached a store outside the block `malloc` granted. -/
def Res.faulted {α : Type} : Res α → Bool
  | .fault _ => true
  | _ => false

/-- A function of the program: it runs from a state to a `Res`. -/
def Proc (α : Type) : Type := State → Res α

def Proc.pure {α : Type} (a : α) : Proc α := fun s => Res.ret a s

/-- Sequencing: after a return the rest runs, after an exit or a fault nothing
does. -/
def Res.andThen {α β : Type} (r : Res α) (k : α → State → Res β) : Res β :=
  match r with
  | Res.ret a s1 => k a s1
  | Res.exit c s1 => Res.exit c s1
  | Res.fault s1 => Res.fault s1

def Proc.bind {α β : Type} (m : Proc α) (k : α → Proc β) : Proc β := fun s =>
  (m s).andThen k

instance : Monad Proc where
  pure := Proc.pure
  bind := Proc.bind

/-- Reads the process-wide variables. -/
def getState : Proc State := fun s => Res.ret s s

/-- Updates the process-wide variables. -/
def modifyState (f : State → State) : Proc Unit := fun s => Res.ret () (f s)

/-- Records a call that leaves the program. -/
def call (e : Event) : Proc Unit := fun s => Res.ret () { s with trace := s.trace ++ [e] }

/-- Records one `printf` call. -/
def printf (o : Out) : Proc Unit := fun s => Res.ret () { s with stdout := s.stdout ++ [o] }

/-- Records one `perror` call. -/
def perror (msg : String) : Proc Unit := fun s => Res.ret () { s with stderr := s.stderr ++ [msg] }

/-- The call `exit(status)`: the run stops here. -/
def exit {α : Type} (status : Int) : Proc α := fun s => Res.exit status s

/-- A store outside the block `malloc` granted: undefined behaviour. -/
def fault {α : Type} : Proc α := fun s => Res.fault s

/-- Conversion of an `int` to `size_t`. -/
def to_size_t (B : Backend) (v : Int) : Nat := (v % (2 ^ B.size_t_bits : Int)).toNat

/-- The expression `SZ * sizeof(int)`, computed in `size_t`. -/
def SZ_bytes (B : Backend) (SZ : Int) : Nat := (to_size_t B SZ * sizeof_int) % 2 ^ B.size_t_bits

/-- Assignment to the global `err`. -/
def set_err (e : Int) : Proc Unit := fun s => Res.ret () { s with err := e }

/-- The function `create_device` (lines 243-269).  `exit` does not return, so
the statements after an `if (...) { ...; exit(1); }` are its `else` branch.
`clGetDeviceIDs` writes `dev` when it returns `CL_SUCCESS`; `dev` is `0`
before the first write. -/
def create_device (B : Backend) : Proc Handle := do
  call Event.clGetPlatformIDs
  let platform := B.clGetPlatformIDs.2
  let err := B.clGetPlatformIDs.1
  if err < 0 then
    perror "Couldn't identify a platform"
    exit 1
  else
    call (Event.clGetDeviceIDs platform DevType.CL_DEVICE_TYPE_GPU)
    let err := (B.clGetDeviceIDs DevType.CL_DEVICE_TYPE_GPU).1
    let dev : Handle :=
      if err = CL_SUCCESS then (B.clGetDeviceIDs DevType.CL_DEVICE_TYPE_GPU).2 else 0
    let r ← (if err = CL_DEVICE_NOT_FOUND then do
        printf (Out.lit "GPU not found\n")
        call (Event.clGetDeviceIDs platform DevType.CL_DEVICE_TYPE_CPU)
        let err := (B.clGetDeviceIDs DevType.CL_DEVICE_TYPE_CPU).1
        pure (err, if err = CL_SUCCESS then (B.clGetDeviceIDs DevType.CL_DEVICE_TYPE_CPU).2 else dev)
      else pure (err, dev))
    let err := r.1
    let dev := r.2
    if err < 0 then
      perror "Couldn't access any devices"
      exit 1
    else
      return dev

/-- The function `build_program` (lines 195-240).  The file is read whole
(`fseek`, `ftell`, `rewind`, `fread`, `fclose`), so `program_size` is the
length of its contents.  `err` is the global variable here: the function
declares none of its own.  The second `clGetProgramBuildInfo` call fills the
first `log_size` bytes of `program_log`, whose last byte was set to `0`, and
`printf("%s\n", ...)` prints the bytes before the first `0`.  The two small
blocks asked of `malloc` here (the file's length plus one, the log's length
plus one) are taken to be granted. -/
def build_program (B : Backend) (ctx dev : Handle) (filename : String) : Proc Handle := do
  call (Event.fopen filename)
  match B.fopen filename with
  | none =>
    perror "Couldn't find the program file"
    exit 1
  | some src =>
    let program_size := src.length
    call (Event.malloc HostPtr.program_buffer (program_size + 1))
    call (Event.clCreateProgramWithSource ctx src)
    let program := B.clCreateProgramWithSource.2
    set_err B.clCreateProgramWithSource.1
    if (← getState).err < 0 then
      perror "Couldn't create the program"
      exit 1
    else
      call (Event.free HostPtr.program_buffer)
      call (Event.clBuildProgram program)
      set_err B.clBuildProgram
      if (← getState).err < 0 then
        call (Event.clGetProgramBuildInfo program dev 0)
        let log_size := B.build_log.length
        call (Event.malloc HostPtr.program_log (log_size + 1))
        let program_log := B.build_log ++ [0]
        call (Event.clGetProgramBuildInfo program dev (log_size + 1))
        printf (Out.s "%s\n" (program_log.takeWhile (fun c => c != 0)))
        call (Event.free HostPtr.program_log)
        exit 1
      else
        return program

/-- The function `setup_openCL_device_context_queue_kernel` (lines 162-191).
Its `err` is the local `cl_int err`, which hides the global one. -/
def setup_openCL_device_context_queue_kernel (B : Backend) (filename kernelname : String) :
    Proc Unit := do
  let dev ← create_device B
  modifyState fun s => { s with device_id := dev }
  call (Event.clCreateContext (← getState).device_id)
  let err := B.clCreateContext.1
  modifyState fun s => { s with context := B.clCreateContext.2 }
  if err < 0 then
    perror "Couldn't create a context"
    exit 1
  else
    let p ← build_program B (← getState).context (← getState).device_id filename
    modifyState fun s => { s with program := p }
    call (Event.clCreateCommandQueue (← getState).context (← getState).device_id)
    let err := B.clCreateCommandQueue.1
    modifyState fun s => { s with queue := B.clCreateCommandQueue.2 }
    if err < 0 then
      perror "Couldn't create a command queue"
      exit 1
    else
      call (Event.clCreateKernel (← getState).program kernelname)
      let err := B.clCreateKernel.1
      modifyState fun s => { s with kernel := B.clCreateKernel.2 }
      if err < 0 then
        perror "Couldn't create a kernel"
        printf (Out.d "error =%d" err)
        exit 1
      else
        pure ()

/-- The function `setup_kernel_memory` (lines 151-159).  `clCreateBuffer` is
given `NULL` for `errcode_ret` and the codes returned by
`clEnqueueWriteBuffer` are dropped. -/
def setup_kernel_memory (B : Backend) : Proc Unit := do
  call (Event.clCreateBuffer Buf.bufV1 (← getState).context (SZ_bytes B (← getState).SZ))
  modifyState fun s => { s with bufV1 := B.clCreateBuffer Buf.bufV1 }
  call (Event.clCreateBuffer Buf.bufV2 (← getState).context (SZ_bytes B (← getState).SZ))
  modifyState fun s => { s with bufV2 := B.clCreateBuffer Buf.bufV2 }
  call (Event.clCreateBuffer Buf.bufV_out (← getState).context (SZ_bytes B (← getState).SZ))
  modifyState fun s => { s with bufV_out := B.clCreateBuffer Buf.bufV_out }
  call (Event.clEnqueueWriteBuffer (← getState).queue Buf.bufV1 (← getState).bufV1
    (SZ_bytes B (← getState).SZ) HostPtr.v1)
  let _ := B.clEnqueueWriteBuffer Buf.bufV1
  call (Event.clEnqueueWriteBuffer (← getState).queue Buf.bufV2 (← getState).bufV2
    (SZ_bytes B (← getState).SZ) HostPtr.v2)
  let _ := B.clEnqueueWriteBuffer Buf.bufV2

/-- The function `copy_kernel_args` (lines 135-148).  The four codes returned
by `clSetKernelArg` are dropped; the test reads the global `err`. -/
def copy_kernel_args (B : Backend) : Proc Unit := do
  call (Event.clSetKernelArg (← getState).kernel 0 sizeof_int (ArgVal.SZ (← getState).SZ))
  let _ := B.clSetKernelArg 0
  call (Event.clSetKernelArg (← getState).kernel 1 B.sizeof_cl_mem
    (ArgVal.mem Buf.bufV1 (← getState).bufV1))
  let _ := B.clSetKernelArg 1
  call (Event.clSetKernelArg (← getState).kernel 2 B.sizeof_cl_mem
    (ArgVal.mem Buf.bufV2 (← getState).bufV2))
  let _ := B.clSetKernelArg 2
  call (Event.clSetKernelArg (← getState).kernel 3 B.sizeof_cl_mem
    (ArgVal.mem Buf.bufV_out (← getState).bufV_out))
  let _ := B.clSetKernelArg 3
  if (← getState).err < 0 then
    perror "Couldn't create a kernel argument"
    printf (Out.d "error = %d" (← getState).err)
    exit 1
  else
    pure ()

/-- The function `free_memory` (lines 118-132). -/
def free_memory : Proc Unit := do
  call (Event.clReleaseMemObject Buf.bufV1 (← getState).bufV1)
  call (Event.clReleaseMemObject Buf.bufV2 (← getState).bufV2)
  call (Event.clReleaseMemObject Buf.bufV_out (← getState).bufV_out)
  call (Event.clReleaseKernel (← getState).kernel)
  call (Event.clReleaseCommandQueue (← getState).queue)
  call (Event.clReleaseProgram (← getState).program)
  call (Event.clReleaseContext (← getState).context)
  call (Event.free HostPtr.v1)
  call (Event.free HostPtr.v2)
  call (Event.free HostPtr.v_out)

/-- The `size` values `rand() % 100` that `init` stores, `k` calls of `rand`
having been made before. -/
def init_values (B : Backend) (k : Nat) (size : Int) : List Int :=
  (List.range size.toNat).map fun i => ((B.rand (k + i) % 100 : Nat) : Int)

/-- The number of `int` elements in the block that `malloc(sizeof(int) * size)`
gives `init` for the array `p`: none when it answers `NULL`. -/
def init_capacity (B : Backend) (p : HostPtr) (size : Int) : Nat :=
  if B.malloc p (SZ_bytes B size) = true then SZ_bytes B size / sizeof_int else 0

/-- Assignment of the array `A` to the global pointer `p` (`v1`, `v2` or
`v_out`). -/
def State.set_array (s : State) (p : HostPtr) (A : List Int) : State :=
  match p with
  | HostPtr.v1 => { s with v1 := A }
  | HostPtr.v2 => { s with v2 := A }
  | HostPtr.v_out => { s with v_out := A }
  | _ => s

/-- The function `init` (lines 77-85): `A = malloc(sizeof(int) * size)`, then
the loop stores `rand() % 100` in `A[0]`, ..., `A[size - 1]`; `p` names the
global pointer passed for the reference parameter `A`.  The pointer is not
checked: when the block holds fewer than `size` elements (`malloc` answered
`NULL`, or `sizeof(int) * size` wrapped in `size_t`), the store that follows
the last element of the block is undefined behaviour, and `rand` has been
called once more than elements were stored. -/
def init (B : Backend) (p : HostPtr) (size : Int) : Proc Unit := do
  call (Event.malloc p (SZ_bytes B size))
  let capacity := init_capacity B p size
  let k := (← getState).rand_calls
  if size.toNat ≤ capacity then
    modifyState fun s =>
      { s.set_array p (init_values B k size) with rand_calls := k + size.toNat }
  else
    modifyState fun s =>
      { s.set_array p (init_values B k capacity) with rand_calls := k + capacity + 1 }
    fault

/-- The macro `PRINT`. -/
def PRINT : Nat := 1

/-- What the loop `for (i = lo; i < hi; i++) printf("%d ", A[i])` writes. -/
def print_loop_out (A : List Int) (lo hi : Int) : List Out :=
  (List.range (hi - lo).toNat).map fun k => Out.d "%d " (A.getD (lo + k).toNat 0)

/-- The loop `for (i = lo; i < hi; i++) printf("%d ", A[i])`. -/
def print_loop (A : List Int) (lo hi : Int) : Proc Unit := fun s =>
  Res.ret () { s with stdout := s.stdout ++ print_loop_out A lo hi }

/-- The function `print` (lines 88-115). -/
def print (A : List Int) (size : Int) : Proc Unit := do
  if PRINT = 0 then
    return
  else
    (if PRINT = 1 ∧ size > 15 then do
      print_loop A 0 5
      printf (Out.lit " ..... ")
      print_loop A (size - 5) size
    else
      print_loop A 0 size)
    printf (Out.lit "\n----------------------------\n")

/-- The blocking `clEnqueueReadBuffer` of `main` (line 68): on success the
first `bytes / sizeof(int)` elements of `v_out` are the device's. -/
def read_v_out (B : Backend) (bytes : Nat) (v_out : List Int) : List Int :=
  if B.clEnqueueReadBuffer = CL_SUCCESS then
    (List.range (min (bytes / sizeof_int) v_out.length)).map B.device_out
      ++ v_out.drop (bytes / sizeof_int)
  else v_out

/-- The function `main` (lines 45-74).  `argv1` is `atoi(argv[1])` when
`argc > 1`.  Falling off the end of `main` returns `0`. -/
def main (B : Backend) (argv1 : Option Int) : Proc Int := do
  modifyState fun s => { s with SZ := argv1.getD s.SZ }
  init B HostPtr.v1 (← getState).SZ
  init B HostPtr.v2 (← getState).SZ
  init B HostPtr.v_out (← getState).SZ
  let global := to_size_t B (← getState).SZ
  print (← getState).v1 (← getState).SZ
  print (← getState).v2 (← getState).SZ
  setup_openCL_device_context_queue_kernel B "./vector_ops_ocl.cl" "vector_add_ocl"
  setup_kernel_memory B
  copy_kernel_args B
  call (Event.now Checkpoint.start)
  call (Event.clEnqueueNDRangeKernel (← getState).queue (← getState).kernel 1 global)
  call Event.clWaitForEvents
  call (Event.clEnqueueReadBuffer (← getState).queue Buf.bufV_out (← getState).bufV_out
    (SZ_bytes B (← getState).SZ) HostPtr.v_out)
  modifyState fun s => { s with v_out := read_v_out B (SZ_bytes B s.SZ) s.v_out }
  print (← getState).v_out (← getState).SZ
  call (Event.now Checkpoint.stop)
  printf (Out.f "Kernel Execution Time: %f ms\n")
  free_memory
  return 0

/-- The process-wide variables at program start: `SZ = 100000000`, the other
globals zero-initialised, nothing called or printed yet. -/
def State.initial : State :=
  { SZ := 100000000, v1 := [], v2 := [], v_out := [], bufV1 := 0, bufV2 := 0, bufV_out := 0,
    device_id := 0, context := 0, program := 0, kernel := 0, queue := 0, err := 0,
    rand_calls := 0, trace := [], stdout := [], stderr := [] }

/-- One run of the program. -/
def run (B : Backend) (argv1 : Option Int) : Res Int := main B argv1 State.initial

/-! ## Observers of a trace -/

/-- The device-side release calls. -/
def Event.isRelease : Event → Bool
  | .clReleaseMemObject _ _ => true
  | .clReleaseKernel _ => true
  | .clReleaseCommandQueue _ => true
  | .clReleaseProgram _ => true
  | .clReleaseContext _ => true
  | _ => false

/-- The calls `setup_openCL_device_context_queue_kernel` can issue, itself or
through `create_device` and `build_program`. -/
def Event.isSetup : Event → Bool
  | .clGetPlatformIDs => true
  | .clGetDeviceIDs _ _ => true
  | .clCreateContext _ => true
  | .fopen _ => true
  | .malloc HostPtr.program_buffer _ => true
  | .malloc HostPtr.program_log _ => true
  | .free HostPtr.program_buffer => true
  | .free HostPtr.program_log => true
  | .clCreateProgramWithSource _ _ => true
  | .clBuildProgram _ => true
  | .clGetProgramBuildInfo _ _ _ => true
  | .clCreateCommandQueue _ _ => true
  | .clCreateKernel _ _ => true
  | _ => false

/-- The calls of `malloc`. -/
def Event.isHostAlloc : Event → Bool
  | .malloc _ _ => true
  | _ => false

/-- The calls `main` can make before `setup_kernel_memory`: those of `init`
and of the set-up. -/
def Event.isEarly (e : Event) : Bool := e.isSetup || e.isHostAlloc

/-- The kernel enqueue. -/
def Event.isEnqueue : Event → Bool
  | .clEnqueueNDRangeKernel _ _ _ _ => true
  | _ => false

/-- The positional binding a `clSetKernelArg` call makes: kernel, index, slot
size and value. -/
def Event.binding? : Event → Option (Handle × Nat × Nat × ArgVal)
  | .clSetKernelArg k idx size val => some (k, idx, size, val)
  | _ => none

/-- The bindings in effect on the kernel after the calls of `t`, in call
order: a `clSetKernelArg` call binds its index when the backend answers
`CL_SUCCESS` and leaves the kernel as it was when the backend rejects it. -/
def kernel_args (B : Backend) (t : List Event) : List (Handle × Nat × Nat × ArgVal) :=
  t.filterMap fun e =>
    match e.binding? with
    | some b => if B.clSetKernelArg b.2.1 = CL_SUCCESS then some b else none
    | none => none

/-- The byte size passed to a buffer allocation, an upload or a download. -/
def Event.transfer_bytes? : Event → Option Nat
  | .clCreateBuffer _ _ bytes => some bytes
  | .clEnqueueWriteBuffer _ _ _ bytes _ => some bytes
  | .clEnqueueReadBuffer _ _ _ bytes _ => some bytes
  | _ => none

/-- The global work size and dimension count passed to the kernel enqueue. -/
def Event.global? : Event → Option (Nat × Nat)
  | .clEnqueueNDRangeKernel _ _ work_dim global => some (work_dim, global)
  | _ => none

/-- The download of the result. -/
def Event.isDownload : Event → Bool
  | .clEnqueueReadBuffer _ _ _ _ _ => true
  | _ => false

/-- The uploads and downloads. -/
def Event.isTransfer : Event → Bool
  | .clEnqueueWriteBuffer _ _ _ _ _ => true
  | .clEnqueueReadBuffer _ _ _ _ _ => true
  | _ => false

/-- The calls between the `start` and the `stop` reads of the clock. -/
def timed_window (t : List Event) : List Event :=
  ((t.dropWhile fun e => e != Event.now Checkpoint.start).drop 1).takeWhile
    fun e => e != Event.now Checkpoint.stop

/-- Every answer of the backend is a success: the codes are `CL_SUCCESS`, the
source file opens, the buffers are not `NULL`. -/
def Backend.all_succeed (B : Backend) : Prop :=
  B.clGetPlatformIDs.1 = CL_SUCCESS ∧
  (B.clGetDeviceIDs DevType.CL_DEVICE_TYPE_GPU).1 = CL_SUCCESS ∧
  B.clCreateContext.1 = CL_SUCCESS ∧
  (B.fopen "./vector_ops_ocl.cl").isSome = true ∧
  B.clCreateProgramWithSource.1 = CL_SUCCESS ∧
  B.clBuildProgram = CL_SUCCESS ∧
  B.clCreateCommandQueue.1 = CL_SUCCESS ∧
  B.clCreateKernel.1 = CL_SUCCESS ∧
  B.clCreateBuffer Buf.bufV1 ≠ 0 ∧ B.clCreateBuffer Buf.bufV2 ≠ 0 ∧
  B.clCreateBuffer Buf.bufV_out ≠ 0 ∧
  B.clEnqueueWriteBuffer Buf.bufV1 = CL_SUCCESS ∧ B.clEnqueueWriteBuffer Buf.bufV2 = CL_SUCCESS ∧
  B.clSetKernelArg 0 = CL_SUCCESS ∧ B.clSetKernelArg 1 = CL_SUCCESS ∧
  B.clSetKernelArg 2 = CL_SUCCESS ∧ B.clSetKernelArg 3 = CL_SUCCESS ∧
  B.clEnqueueNDRangeKernel = CL_SUCCESS ∧ B.clWaitForEvents = CL_SUCCESS ∧
  B.clEnqueueReadBuffer = CL_SUCCESS

instance (B : Backend) : Decidable B.all_succeed := by
  unfold Backend.all_succeed
  infer_instance

/-- What `print` writes. -/
def print_out (A : List Int) (size : Int) : List Out :=
  (if size > 15 then
    print_loop_out A 0 5 ++ [Out.lit " ..... "] ++ print_loop_out A (size - 5) size
  else print_loop_out A 0 size) ++
  [Out.lit "\n----------------------------\n"]

/-- What every outcome `r` of the set-up code started in `s` satisfies: the
calls made are set-up calls, `SZ` and the host arrays are untouched, an exit
has status 1, and no store is made outside a block. -/
def setup_frame {α : Type} (s : State) (r : Res α) : Prop :=
  (∃ evs, r.state.trace = s.trace ++ evs ∧ ∀ e ∈ evs, e.isSetup = true) ∧
  r.state.SZ = s.SZ ∧ r.state.v1 = s.v1 ∧ r.state.v2 = s.v2 ∧ r.state.v_out = s.v_out ∧
  (∀ c, r.status = some c → c = 1) ∧ r.faulted = false

/-- The three blocks `init` is given hold the `SZ` elements it stores: `malloc`
granted each and `SZ * sizeof(int)` did not wrap in `size_t`. -/
def arrays_fit (B : Backend) (SZ : Int) : Prop :=
  SZ.toNat ≤ init_capacity B HostPtr.v1 SZ ∧ SZ.toNat ≤ init_capacity B HostPtr.v2 SZ ∧
  SZ.toNat ≤ init_capacity B HostPtr.v_out SZ

instance (B : Backend) (SZ : Int) : Decidable (arrays_fit B SZ) := by
  unfold arrays_fit
  infer_instance

/-- The element count of a run: `atoi(argv[1])` when given, else the preset. -/
def element_count (argv1 : Option Int) : Int := argv1.getD 100000000

/-- The calls of the three `init` calls of `main`. -/
def init_trace (B : Backend) (SZ : Int) : List Event :=
  [Event.malloc HostPtr.v1 (SZ_bytes B SZ), Event.malloc HostPtr.v2 (SZ_bytes B SZ),
   Event.malloc HostPtr.v_out (SZ_bytes B SZ)]

/-- The calls of `main` after the set-up, read off the final state `s`:
`setup_kernel_memory`, `copy_kernel_args`, the timed part, `free_memory`. -/
def pipeline_tail (B : Backend) (s : State) : List Event :=
  [Event.clCreateBuffer Buf.bufV1 s.context (SZ_bytes B s.SZ),
   Event.clCreateBuffer Buf.bufV2 s.context (SZ_bytes B s.SZ),
   Event.clCreateBuffer Buf.bufV_out s.context (SZ_bytes B s.SZ),
   Event.clEnqueueWriteBuffer s.queue Buf.bufV1 s.bufV1 (SZ_bytes B s.SZ) HostPtr.v1,
   Event.clEnqueueWriteBuffer s.queue Buf.bufV2 s.bufV2 (SZ_bytes B s.SZ) HostPtr.v2,
   Event.clSetKernelArg s.kernel 0 sizeof_int (ArgVal.SZ s.SZ),
   Event.clSetKernelArg s.kernel 1 B.sizeof_cl_mem (ArgVal.mem Buf.bufV1 s.bufV1),
   Event.clSetKernelArg s.kernel 2 B.sizeof_cl_mem (ArgVal.mem Buf.bufV2 s.bufV2),
   Event.clSetKernelArg s.kernel 3 B.sizeof_cl_mem (ArgVal.mem Buf.bufV_out s.bufV_out),
   Event.now Checkpoint.start,
   Event.clEnqueueNDRangeKernel s.queue s.kernel 1 (to_size_t B s.SZ),
   Event.clWaitForEvents,
   Event.clEnqueueReadBuffer s.queue Buf.bufV_out s.bufV_out (SZ_bytes B s.SZ) HostPtr.v_out,
   Event.now Checkpoint.stop,
   Event.clReleaseMemObject Buf.bufV1 s.bufV1,
   Event.clReleaseMemObject Buf.bufV2 s.bufV2,
   Event.clReleaseMemObject Buf.bufV_out s.bufV_out,
   Event.clReleaseKernel s.kernel,
   Event.clReleaseCommandQueue s.queue,
   Event.clReleaseProgram s.program,
   Event.clReleaseContext s.context,
   Event.free HostPtr.v1, Event.free HostPtr.v2, Event.free HostPtr.v_out]

/-- The state of `main` at line 61: after the three `init` calls, none of
which stored outside its block, and the two `print` calls, started in `s`. -/
def after_init (B : Backend) (argv1 : Option Int) (s : State) : State :=
  { s with
    SZ := argv1.getD s.SZ
    v1 := init_values B s.rand_calls (argv1.getD s.SZ)
    v2 := init_values B (s.rand_calls + (argv1.getD s.SZ).toNat) (argv1.getD s.SZ)
    v_out := init_values B
      (s.rand_calls + (argv1.getD s.SZ).toNat + (argv1.getD s.SZ).toNat) (argv1.getD s.SZ)
    rand_calls := s.rand_calls + (argv1.getD s.SZ).toNat + (argv1.getD s.SZ).toNat +
      (argv1.getD s.SZ).toNat
    trace := s.trace ++ init_trace B (argv1.getD s.SZ)
    stdout := s.stdout ++
      print_out (init_values B s.rand_calls (argv1.getD s.SZ)) (argv1.getD s.SZ) ++
      print_out (init_values B (s.rand_calls + (argv1.getD s.SZ).toNat) (argv1.getD s.SZ))
        (argv1.getD s.SZ) }

/-- The state in which `main` returns, `s` being the state in which the
set-up returned. -/
def after_pipeline (B : Backend) (s : State) : State :=
  { s with
    bufV1 := B.clCreateBuffer Buf.bufV1
    bufV2 := B.clCreateBuffer Buf.bufV2
    bufV_out := B.clCreateBuffer Buf.bufV_out
    v_out := read_v_out B (SZ_bytes B s.SZ) s.v_out
    trace := s.trace ++ pipeline_tail B
      { s with bufV1 := B.clCreateBuffer Buf.bufV1, bufV2 := B.clCreateBuffer Buf.bufV2,
               bufV_out := B.clCreateBuffer Buf.bufV_out }
    stdout := s.stdout ++ print_out (read_v_out B (SZ_bytes B s.SZ) s.v_out) s.SZ ++
      [Out.f "Kernel Execution Time: %f ms\n"] }

/-! ## Sample backends -/

/-- A 64-bit platform with a GPU on which every call succeeds.  The handles
are 1 (platform), 2 (device), 3 (context), 4 (program), 5 (queue),
6 (kernel) and 11, 12, 13 (buffers); `malloc` grants every block. -/
def B_ok : Backend :=
  { size_t_bits := 64, sizeof_cl_mem := 8, rand := fun i => 7 * i + 3,
    malloc := fun _ _ => true,
    clGetPlatformIDs := (0, 1), clGetDeviceIDs := fun _ => (0, 2), clCreateContext := (0, 3),
    fopen := fun _ => some [107], clCreateProgramWithSource := (0, 4), clBuildProgram := 0,
    build_log := [], clCreateCommandQueue := (0, 5), clCreateKernel := (0, 6),
    clCreateBuffer := fun b => match b with
      | Buf.bufV1 => 11 | Buf.bufV2 => 12 | Buf.bufV_out => 13,
    clEnqueueWriteBuffer := fun _ => 0, clSetKernelArg := fun _ => 0,
    clEnqueueNDRangeKernel := 0, clWaitForEvents := 0, clEnqueueReadBuffer := 0,
    device_out := fun i => 2 * i }

/-- As `B_ok`, but the platform has no GPU: the GPU query answers
`CL_DEVICE_NOT_FOUND` and the CPU query finds device 9. -/
def B_cpu : Backend :=
  { B_ok with clGetDeviceIDs := fun ty => match ty with
      | DevType.CL_DEVICE_TYPE_GPU => (-1, 0)
      | DevType.CL_DEVICE_TYPE_CPU => (0, 9) }

/-- As `B_cpu`, but the CPU query fails too. -/
def B_nodev : Backend :=
  { B_ok with clGetDeviceIDs := fun _ => (-1, 0) }

/-- As `B_ok`, but the kernel source file cannot be opened. -/
def B_nofile : Backend :=
  { B_ok with fopen := fun _ => none }

/-- As `B_ok`, but `clSetKernelArg` rejects every binding with
`CL_INVALID_ARG_INDEX` (-49). -/
def B_argfail : Backend :=
  { B_ok with clSetKernelArg := fun _ => -49 }

/-- As `B_ok`, but every buffer allocation fails (`NULL`) and every transfer is
rejected with `CL_INVALID_MEM_OBJECT` (-38). -/
def B_memfail : Backend :=
  { B_ok with clCreateBuffer := fun _ => 0, clEnqueueWriteBuffer := fun _ => -38,
              clEnqueueReadBuffer := -38 }

/-- As `B_ok`, but compilation fails with `CL_BUILD_PROGRAM_FAILURE` (-11) and
the backend reports a build log of `log_size = 4` bytes, the text `err`
and its terminating `0`. -/
def B_buildfail : Backend :=
  { B_ok with clBuildProgram := -11, build_log := [101, 114, 114, 0] }

/-- A platform with a 32-bit `size_t` on which every call succeeds. -/
def B_32 : Backend :=
  { B_ok with size_t_bits := 32, sizeof_cl_mem := 4 }

/-! ## How the statements of the program run -/

@[simp] theorem bind_run {α β : Type} (m : Proc α) (k : α → Proc β) (s : State) :
    (m >>= k) s = (m s).andThen k := by
  exact Eq.trans rfl rfl

@[simp] theorem andThen_ret {α β : Type} (a : α) (s : State) (k : α → State → Res β) :
    (Res.ret a s).andThen k = k a s := by
  exact Eq.trans rfl rfl

@[simp] theorem andThen_exit {α β : Type} (c : Int) (s : State) (k : α → State → Res β) :
    (Res.exit c s : Res α).andThen k = Res.exit c s := by
  exact Eq.trans rfl rfl

@[simp] theorem andThen_fault {α β : Type} (s : State) (k : α → State → Res β) :
    (Res.fault s : Res α).andThen k = Res.fault s := by
  exact Eq.trans rfl rfl

@[simp] theorem andThen_ite {α β : Type} (c : Prop) [Decidable c] (x y : Res α)
    (k : α → State → Res β) :
    (if c then x else y).andThen k = if c then x.andThen k else y.andThen k := by
  split_ifs <;> rfl

@[simp] theorem pure_run {α : Type} (a : α) (s : State) : (pure a : Proc α) s = Res.ret a s := by
  exact Eq.trans rfl rfl

@[simp] theorem ite_run {α : Type} (c : Prop) [Decidable c] (f g : Proc α) (s : State) :
    (if c then f else g) s = if c then f s else g s := by
  split_ifs <;> rfl

@[simp] theorem call_run (e : Event) (s : State) :
    call e s = Res.ret () { s with trace := s.trace ++ [e] } := by
  exact Eq.trans rfl rfl

@[simp] theorem printf_run (o : Out) (s : State) :
    printf o s = Res.ret () { s with stdout := s.stdout ++ [o] } := by
  exact Eq.trans rfl rfl

@[simp] theorem perror_run (msg : String) (s : State) :
    perror msg s = Res.ret () { s with stderr := s.stderr ++ [msg] } := by
  exact Eq.trans rfl rfl

@[simp] theorem exit_run {α : Type} (c : Int) (s : State) : (exit c : Proc α) s = Res.exit c s := by
  exact Eq.trans rfl rfl

@[simp] theorem fault_run {α : Type} (s : State) : (fault : Proc α) s = Res.fault s := by
  exact Eq.trans rfl rfl

@[simp] theorem getState_run (s : State) : getState s = Res.ret s s := by
  exact Eq.trans rfl rfl

@[simp] theorem modifyState_run (f : State → State) (s : State) :
    modifyState f s = Res.ret () (f s) := by
  exact Eq.trans rfl rfl

@[simp] theorem set_err_run (e : Int) (s : State) :
    set_err e s = Res.ret () { s with err := e } := by
  exact Eq.trans rfl rfl

/-- The function `print` always returns, having written `print_out`. -/
theorem print_run (A : List Int) (size : Int) (s : State) :
    print A size s = Res.ret () { s with stdout := s.stdout ++ print_out A size } := by
  simp only [print, print_out, PRINT, print_loop, bind_run, andThen_ret, pure_run, ite_run,
    printf_run]
  split_ifs <;> simp_all

/-- The function `init` returns, the array filled with its `size` values, when
the block holds them. -/
theorem init_run (B : Backend) (p : HostPtr) (size : Int) (s : State)
    (h : size.toNat ≤ init_capacity B p size) :
    init B p size s = Res.ret ()
      { { s with trace := s.trace ++ [Event.malloc p (SZ_bytes B size)] }.set_array p
          (init_values B s.rand_calls size) with
        rand_calls := s.rand_calls + size.toNat } := by
  simp only [init, bind_run, andThen_ret, call_run, getState_run, modifyState_run, ite_run, h,
    if_true]

/-- The function `init` stores outside its block when the block does not hold
`size` elements. -/
theorem init_overrun (B : Backend) (p : HostPtr) (size : Int) (s : State)
    (h : ¬ size.toNat ≤ init_capacity B p size) :
    init B p size s = Res.fault
      { { s with trace := s.trace ++ [Event.malloc p (SZ_bytes B size)] }.set_array p
          (init_values B s.rand_calls (init_capacity B p size)) with
        rand_calls := s.rand_calls + init_capacity B p size + 1 } := by
  simp only [init, bind_run, andThen_ret, andThen_fault, call_run, getState_run,
    modifyState_run, ite_run, fault_run, h, if_false]

/-- The five outcomes of `create_device`. -/
theorem create_device_eq (B : Backend) (s : State) :
    create_device B s =
      if B.clGetPlatformIDs.1 < 0 then
        Res.exit 1 { s with trace := s.trace ++ [Event.clGetPlatformIDs],
                            stderr := s.stderr ++ ["Couldn't identify a platform"] }
      else if (B.clGetDeviceIDs DevType.CL_DEVICE_TYPE_GPU).1 = CL_DEVICE_NOT_FOUND then
        if (B.clGetDeviceIDs DevType.CL_DEVICE_TYPE_CPU).1 < 0 then
          Res.exit 1 { s with
            trace := s.trace ++ [Event.clGetPlatformIDs,
              Event.clGetDeviceIDs B.clGetPlatformIDs.2 DevType.CL_DEVICE_TYPE_GPU,
              Event.clGetDeviceIDs B.clGetPlatformIDs.2 DevType.CL_DEVICE_TYPE_CPU],
            stdout := s.stdout ++ [Out.lit "GPU not found\n"],
            stderr := s.stderr ++ ["Couldn't access any devices"] }
        else
          Res.ret (if (B.clGetDeviceIDs DevType.CL_DEVICE_TYPE_CPU).1 = CL_SUCCESS
              then (B.clGetDeviceIDs DevType.CL_DEVICE_TYPE_CPU).2 else 0)
            { s with
              trace := s.trace ++ [Event.clGetPlatformIDs,
                Event.clGetDeviceIDs B.clGetPlatformIDs.2 DevType.CL_DEVICE_TYPE_GPU,
                Event.clGetDeviceIDs B.clGetPlatformIDs.2 DevType.CL_DEVICE_TYPE_CPU],
              stdout := s.stdout ++ [Out.lit "GPU not found\n"] }
      else if (B.clGetDeviceIDs DevType.CL_DEVICE_TYPE_GPU).1 < 0 then
        Res.exit 1 { s with
          trace := s.trace ++ [Event.clGetPlatformIDs,
            Event.clGetDeviceIDs B.clGetPlatformIDs.2 DevType.CL_DEVICE_TYPE_GPU],
          stderr := s.stderr ++ ["Couldn't access any devices"] }
      else
        Res.ret (if (B.clGetDeviceIDs DevType.CL_DEVICE_TYPE_GPU).1 = CL_SUCCESS
            then (B.clGetDeviceIDs DevType.CL_DEVICE_TYPE_GPU).2 else 0)
          { s with
            trace := s.trace ++ [Event.clGetPlatformIDs,
              Event.clGetDeviceIDs B.clGetPlatformIDs.2 DevType.CL_DEVICE_TYPE_GPU] } := by
  simp only [create_device, bind_run, andThen_ret, andThen_exit, andThen_ite, pure_run, ite_run,
    call_run, printf_run, perror_run, exit_run, CL_DEVICE_NOT_FOUND, CL_SUCCESS]
  split_ifs <;> simp_all

@[simp] theorem isSetup_calls :
    Event.isSetup Event.clGetPlatformIDs = true ∧
    (∀ p ty, Event.isSetup (Event.clGetDeviceIDs p ty) = true) ∧
    (∀ d, Event.isSetup (Event.clCreateContext d) = true) ∧
    (∀ f, Event.isSetup (Event.fopen f) = true) ∧
    (∀ n, Event.isSetup (Event.malloc HostPtr.program_buffer n) = true) ∧
    (∀ n, Event.isSetup (Event.malloc HostPtr.program_log n) = true) ∧
    Event.isSetup (Event.free HostPtr.program_buffer) = true ∧
    Event.isSetup (Event.free HostPtr.program_log) = true ∧
    (∀ c src, Event.isSetup (Event.clCreateProgramWithSource c src) = true) ∧
    (∀ p, Event.isSetup (Event.clBuildProgram p) = true) ∧
    (∀ p d n, Event.isSetup (Event.clGetProgramBuildInfo p d n) = true) ∧
    (∀ c d, Event.isSetup (Event.clCreateCommandQueue c d) = true) ∧
    (∀ p n, Event.isSetup (Event.clCreateKernel p n) = true) := by
  refine ⟨rfl, ?_, ?_, ?_, ?_, ?_, rfl, rfl, ?_, ?_, ?_, ?_, ?_⟩ <;> intros <;> rfl

/-- Whatever `create_device` does, it stays within the set-up frame. -/
theorem create_device_frame (B : Backend) (s : State) :
    setup_frame s (create_device B s) ∧ (create_device B s).state.err = s.err := by
  rw [create_device_eq]
  unfold setup_frame
  split_ifs <;> simp [Res.state, Res.status, Res.faulted]

/-- Whatever `build_program` does, it stays within the set-up frame, and it
returns only with a global `err` that is not negative. -/
theorem build_program_frame (B : Backend) (ctx dev : Handle) (f : String) (s : State) :
    setup_frame s (build_program B ctx dev f s) ∧
    ((build_program B ctx dev f s).returned = true →
      0 ≤ (build_program B ctx dev f s).state.err) := by
  generalize hr : build_program B ctx dev f s = r
  unfold setup_frame
  cases hf : B.fopen f <;>
  simp only [build_program, bind_run, andThen_ret, andThen_exit, andThen_ite, pure_run, ite_run,
    call_run, printf_run, perror_run, exit_run, getState_run, set_err_run, hf] at hr
  · subst hr
    simp [Res.state, Res.status, Res.faulted, Res.returned]
  · split_ifs at hr <;> subst hr <;> simp [Res.state, Res.status, Res.faulted, Res.returned]
    omega

/-- Whatever the set-up does, it stays within the set-up frame, and it returns
only with a global `err` that is not negative. -/
theorem setup_frame_spec (B : Backend) (f k : String) (s : State) :
    setup_frame s (setup_openCL_device_context_queue_kernel B f k s) ∧
    ((setup_openCL_device_context_queue_kernel B f k s).returned = true →
      0 ≤ (setup_openCL_device_context_queue_kernel B f k s).state.err) := by
  generalize hr : setup_openCL_device_context_queue_kernel B f k s = r
  simp only [setup_openCL_device_context_queue_kernel, bind_run] at hr
  obtain ⟨⟨⟨e1, ht1, he1⟩, hSZ1, hv1, hv2, hv3, hc1, hf1⟩, -⟩ := create_device_frame B s
  rcases hd : create_device B s with ⟨dev, s1⟩ | ⟨c1, s1⟩ | ⟨s1⟩
  all_goals rw [hd] at hr ht1 hSZ1 hv1 hv2 hv3 hc1 hf1
  all_goals simp only [bind_run, andThen_ret, andThen_exit, andThen_fault, andThen_ite, pure_run,
    ite_run, call_run, printf_run, perror_run, exit_run, getState_run, modifyState_run,
    Res.state, Res.status, Res.faulted] at hr ht1 hSZ1 hv1 hv2 hv3 hc1 hf1
  · by_cases hctx : B.clCreateContext.1 < 0
    · simp only [hctx, if_true] at hr
      subst hr
      unfold setup_frame
      simp [Res.state, Res.status, Res.faulted, Res.returned, or_imp, forall_and, *]
      exact he1
    · simp only [hctx, if_false] at hr
      generalize hS : State.mk _ _ _ _ _ _ _ _ _ _ _ _ _ _ _ _ _ = S at hr
      obtain ⟨⟨⟨e2, ht2, he2⟩, hSZ2, hw1, hw2, hw3, hc2, hf2⟩, herr2⟩ :=
        build_program_frame B B.clCreateContext.2 dev f S
      rcases hb : build_program B B.clCreateContext.2 dev f S with ⟨p, s2⟩ | ⟨c2, s2⟩ | ⟨s2⟩
      all_goals rw [hb] at hr ht2 hSZ2 hw1 hw2 hw3 hc2 hf2 herr2
      all_goals simp only [bind_run, andThen_ret, andThen_exit, andThen_fault, andThen_ite,
        pure_run, ite_run, call_run, printf_run, perror_run, exit_run, getState_run,
        modifyState_run, Res.state, Res.status, Res.faulted, Res.returned]
        at hr ht2 hSZ2 hw1 hw2 hw3 hc2 hf2 herr2
      all_goals subst hS
      all_goals simp only [] at ht2 hSZ2 hw1 hw2 hw3
      · unfold setup_frame
        split_ifs at hr <;> subst hr <;>
          simp [Res.state, Res.status, Res.faulted, Res.returned, or_imp, forall_and, *] <;>
          tauto
      · subst hr
        unfold setup_frame
        simp [Res.state, Res.status, Res.faulted, Res.returned, or_imp, forall_and, *]
        tauto
      · exact absurd hf2 (by decide)
  · subst hr
    unfold setup_frame
    simp [Res.state, Res.status, Res.faulted, Res.returned, or_imp, forall_and, *]
    exact ⟨he1, hc1 c1 rfl⟩
  · exact absurd hf1 (by decide)

theorem read_v_out_length (B : Backend) (bytes : Nat) (v : List Int) :
    (read_v_out B bytes v).length = v.length := by
  unfold read_v_out
  split_ifs
  · simp only [List.length_append, List.length_map, List.length_range, List.length_drop]
    omega
  · rfl

/-- When one of the three blocks does not hold `SZ` elements, `main` stops in
`init` on a store outside the block, having called nothing but `malloc`. -/
theorem main_overrun (B : Backend) (argv1 : Option Int) (s0 : State)
    (h : ¬ arrays_fit B (argv1.getD s0.SZ)) :
    ∃ s1 evs, main B argv1 s0 = Res.fault s1 ∧ s1.SZ = argv1.getD s0.SZ ∧
      s1.trace = s0.trace ++ evs ∧ ∀ e ∈ evs, e.isHostAlloc = true := by
  by_cases h1 : (argv1.getD s0.SZ).toNat ≤ init_capacity B HostPtr.v1 (argv1.getD s0.SZ)
  · by_cases h2 : (argv1.getD s0.SZ).toNat ≤ init_capacity B HostPtr.v2 (argv1.getD s0.SZ)
    · have h3 : ¬ (argv1.getD s0.SZ).toNat ≤ init_capacity B HostPtr.v_out (argv1.getD s0.SZ) :=
        fun h3 => h ⟨h1, h2, h3⟩
      simp only [main, bind_run, andThen_ret, andThen_fault, getState_run, modifyState_run,
        init_run B HostPtr.v1 _ _ h1, init_run B HostPtr.v2 _ _ h2,
        init_overrun B HostPtr.v_out _ _ h3, State.set_array]
      refine ⟨_, init_trace B (argv1.getD s0.SZ), rfl, rfl, ?_, ?_⟩
      · simp only [init_trace, List.append_assoc, List.cons_append, List.nil_append]
      · simp [init_trace, Event.isHostAlloc]
    · simp only [main, bind_run, andThen_ret, andThen_fault, getState_run, modifyState_run,
        init_run B HostPtr.v1 _ _ h1, init_overrun B HostPtr.v2 _ _ h2, State.set_array]
      refine ⟨_, (init_trace B (argv1.getD s0.SZ)).take 2, rfl, rfl, ?_, ?_⟩
      · simp only [init_trace, List.take, List.append_assoc, List.cons_append, List.nil_append]
      · simp [init_trace, Event.isHostAlloc]
  · simp only [main, bind_run, andThen_ret, andThen_fault, getState_run, modifyState_run,
      init_overrun B HostPtr.v1 _ _ h1, State.set_array]
    refine ⟨_, (init_trace B (argv1.getD s0.SZ)).take 1, rfl, rfl, ?_, ?_⟩
    · simp only [init_trace, List.take]
    · simp [init_trace, Event.isHostAlloc]

/-- The two ways `main` ends when the three blocks hold `SZ` elements: the
set-up exits and so does `main`, or the set-up returns and `main` runs to its
end. -/
theorem main_cases (B : Backend) (argv1 : Option Int) (s0 : State)
    (h : arrays_fit B (argv1.getD s0.SZ)) :
    (∃ c s1, setup_openCL_device_context_queue_kernel B "./vector_ops_ocl.cl" "vector_add_ocl"
        (after_init B argv1 s0) = Res.exit c s1 ∧ main B argv1 s0 = Res.exit c s1) ∨
    (∃ s1, setup_openCL_device_context_queue_kernel B "./vector_ops_ocl.cl" "vector_add_ocl"
        (after_init B argv1 s0) = Res.ret () s1 ∧
      main B argv1 s0 = Res.ret 0 (after_pipeline B s1)) := by
  obtain ⟨h1, h2, h3⟩ := h
  have hm : main B argv1 s0 = main B argv1 s0 := rfl
  conv at hm =>
    rhs
    simp only [main, bind_run, andThen_ret, print_run, getState_run, modifyState_run,
      init_run B HostPtr.v1 _ _ h1, init_run B HostPtr.v2 _ _ h2,
      init_run B HostPtr.v_out _ _ h3, State.set_array]
  generalize hS : State.mk _ _ _ _ _ _ _ _ _ _ _ _ _ _ _ _ _ = S at hm
  have hS' : S = after_init B argv1 s0 := by
    rw [← hS]
    simp only [after_init, init_trace, List.append_assoc, List.cons_append, List.nil_append]
  clear hS
  subst hS'
  obtain ⟨⟨-, hSZ, -, -, -, -, hnf⟩, herr⟩ :=
    setup_frame_spec B "./vector_ops_ocl.cl" "vector_add_ocl" (after_init B argv1 s0)
  rcases hd : setup_openCL_device_context_queue_kernel B "./vector_ops_ocl.cl" "vector_add_ocl"
      (after_init B argv1 s0) with ⟨u, s1⟩ | ⟨c1, s1⟩ | ⟨s1⟩
  · right
    rw [hd] at hm hSZ herr
    have herr' : ¬ s1.err < 0 := not_lt.mpr (herr rfl)
    have hSZ' : argv1.getD s0.SZ = s1.SZ := hSZ.symm
    refine ⟨s1, rfl, ?_⟩
    rw [hm]
    simp only [setup_kernel_memory, copy_kernel_args, free_memory, bind_run, andThen_ret,
      andThen_exit, andThen_ite, pure_run, ite_run, call_run, printf_run, perror_run, exit_run,
      getState_run, modifyState_run, print_run, herr', if_false, after_pipeline, pipeline_tail,
      List.append_assoc, List.cons_append, List.nil_append, hSZ']
  · left
    rw [hd] at hm
    exact ⟨c1, s1, rfl, hm⟩
  · rw [hd] at hnf
    simp [Res.faulted] at hnf

theorem init_values_length (B : Backend) (k : Nat) (size : Int) :
    (init_values B k size).length = size.toNat := by
  simp [init_values]

/-- A call made before `setup_kernel_memory` is none of the calls the later
steps of `main` make. -/
theorem isEarly_other (e : Event) (h : e.isEarly = true) :
    e.isRelease = false ∧ e.isEnqueue = false ∧ e.isTransfer = false ∧ e.binding? = none ∧
    e.transfer_bytes? = none ∧ e.global? = none ∧ e.isDownload = false := by
  cases e <;> first | exact ⟨rfl, rfl, rfl, rfl, rfl, rfl, rfl⟩ | cases h

theorem isEarly_of_isSetup (e : Event) (h : e.isSetup = true) : e.isEarly = true := by
  unfold Event.isEarly
  rw [h]
  rfl

theorem isEarly_of_isHostAlloc (e : Event) (h : e.isHostAlloc = true) : e.isEarly = true := by
  unfold Event.isEarly
  rw [h]
  exact Bool.or_true _

/-- Every run ends in one of three ways: in `init`, on a store outside a block
that does not hold `SZ` elements; in the set-up, with exit status 1; or at
the end of `main`, which returns `0` after the calls of `pipeline_tail`.  In
each case `s1` is the state before `setup_kernel_memory` would run. -/
theorem run_outcome (B : Backend) (argv1 : Option Int) :
    ∃ s1, (∀ e ∈ s1.trace, e.isEarly = true) ∧ s1.SZ = element_count argv1 ∧
      ((¬ arrays_fit B (element_count argv1) ∧ run B argv1 = Res.fault s1) ∨
       (arrays_fit B (element_count argv1) ∧
        s1.v1.length = (element_count argv1).toNat ∧
        s1.v2.length = (element_count argv1).toNat ∧
        s1.v_out.length = (element_count argv1).toNat ∧
        (∃ evs, s1.trace = init_trace B (element_count argv1) ++ evs) ∧
        (run B argv1 = Res.exit 1 s1 ∨ run B argv1 = Res.ret 0 (after_pipeline B s1)))) := by
  by_cases hfit : arrays_fit B (element_count argv1)
  · obtain ⟨⟨⟨evs, ht, he⟩, hSZ, hv1, hv2, hv3, hc, -⟩, -⟩ :=
      setup_frame_spec B "./vector_ops_ocl.cl" "vector_add_ocl" (after_init B argv1 State.initial)
    have hinit : (after_init B argv1 State.initial).SZ = element_count argv1 := rfl
    have htr : (after_init B argv1 State.initial).trace = init_trace B (element_count argv1) := by
      simp only [after_init, State.initial, List.nil_append, element_count]
    have hl1 : (after_init B argv1 State.initial).v1.length = (element_count argv1).toNat := by
      simp only [after_init, init_values_length, State.initial, element_count]
    have hl2 : (after_init B argv1 State.initial).v2.length = (element_count argv1).toNat := by
      simp only [after_init, init_values_length, State.initial, element_count]
    have hl3 : (after_init B argv1 State.initial).v_out.length =
        (element_count argv1).toNat := by
      simp only [after_init, init_values_length, State.initial, element_count]
    have hearly : ∀ s1 : State, s1.trace = init_trace B (element_count argv1) ++ evs →
        ∀ e ∈ s1.trace, e.isEarly = true := by
      intro s1 hs e hmem
      rw [hs] at hmem
      rcases List.mem_append.mp hmem with h1 | h2
      · simp only [init_trace, List.mem_cons, List.mem_singleton, List.not_mem_nil,
          or_false] at h1
        rcases h1 with rfl | rfl | rfl <;> rfl
      · exact isEarly_of_isSetup e (he e h2)
    rcases main_cases B argv1 State.initial hfit with ⟨c, s1, hd, hm⟩ | ⟨s1, hd, hm⟩
    · rw [hd] at ht hSZ hv1 hv2 hv3 hc
      simp only [Res.state, Res.status] at ht hSZ hv1 hv2 hv3 hc
      have hc1 : c = 1 := hc c rfl
      subst hc1
      have ht' : s1.trace = init_trace B (element_count argv1) ++ evs := by rw [ht, htr]
      exact ⟨s1, hearly s1 ht', hSZ.trans hinit, Or.inr ⟨hfit, by rw [hv1, hl1],
        by rw [hv2, hl2], by rw [hv3, hl3], ⟨evs, ht'⟩, Or.inl hm⟩⟩
    · rw [hd] at ht hSZ hv1 hv2 hv3
      simp only [Res.state] at ht hSZ hv1 hv2 hv3
      have ht' : s1.trace = init_trace B (element_count argv1) ++ evs := by rw [ht, htr]
      exact ⟨s1, hearly s1 ht', hSZ.trans hinit, Or.inr ⟨hfit, by rw [hv1, hl1],
        by rw [hv2, hl2], by rw [hv3, hl3], ⟨evs, ht'⟩, Or.inr hm⟩⟩
  · obtain ⟨s1, evs, hm, hSZ, ht, he⟩ := main_overrun B argv1 State.initial hfit
    refine ⟨s1, ?_, hSZ, Or.inl ⟨hfit, hm⟩⟩
    intro e hmem
    rw [ht] at hmem
    simp only [State.initial, List.nil_append] at hmem
    exact isEarly_of_isHostAlloc e (he e hmem)

theorem takeWhile_terminated (l : List Nat) :
    (l ++ [0]).takeWhile (fun c => c != 0) = l.takeWhile (fun c => c != 0) := by
  induction l with
  | nil => rfl
  | cons a l ih =>
    by_cases ha : a = 0
    · subst ha
      rfl
    · have ha' : (a != 0) = true := by simpa using ha
      simp only [List.cons_append, List.takeWhile_cons, ha', if_true, ih]

theorem takeWhile_no_nul (l : List Nat) (h : 0 ∉ l) : l.takeWhile (fun c => c != 0) = l := by
  induction l with
  | nil => rfl
  | cons a l ih =>
    have ha : (a != 0) = true := by
      have : a ≠ 0 := fun h0 => h (by simp [h0])
      simpa using this
    simp only [List.takeWhile_cons, ha, if_true, ih (fun h0 => h (List.mem_cons_of_mem _ h0))]

theorem early_filter_release (evs : List Event) (h : ∀ e ∈ evs, e.isEarly = true) :
    evs.filter Event.isRelease = [] := by
  rw [List.filter_eq_nil_iff]
  intro a ha
  rw [(isEarly_other a (h a ha)).1]
  decide

theorem early_filterMap_binding (evs : List Event) (h : ∀ e ∈ evs, e.isEarly = true) :
    evs.filterMap Event.binding? = [] := by
  rw [List.filterMap_eq_nil_iff]
  intro a ha
  exact (isEarly_other a (h a ha)).2.2.2.1

theorem early_filterMap_bytes (evs : List Event) (h : ∀ e ∈ evs, e.isEarly = true) :
    evs.filterMap Event.transfer_bytes? = [] := by
  rw [List.filterMap_eq_nil_iff]
  intro a ha
  exact (isEarly_other a (h a ha)).2.2.2.2.1

theorem early_filterMap_global (evs : List Event) (h : ∀ e ∈ evs, e.isEarly = true) :
    evs.filterMap Event.global? = [] := by
  rw [List.filterMap_eq_nil_iff]
  intro a ha
  exact (isEarly_other a (h a ha)).2.2.2.2.2.1

theorem early_any_enqueue (evs : List Event) (h : ∀ e ∈ evs, e.isEarly = true) :
    evs.any Event.isEnqueue = false := by
  rw [List.any_eq_false]
  intro a ha
  rw [(isEarly_other a (h a ha)).2.1]
  decide

theorem early_not_enqueue (evs : List Event) (h : ∀ e ∈ evs, e.isEarly = true) :
    ∀ e ∈ evs, (!e.isEnqueue) = true := by
  intro a ha
  rw [(isEarly_other a (h a ha)).2.1]
  rfl

theorem early_filter_enqueue (evs : List Event) (h : ∀ e ∈ evs, e.isEarly = true) :
    evs.filter Event.isEnqueue = [] := by
  rw [List.filter_eq_nil_iff]
  intro a ha
  rw [(isEarly_other a (h a ha)).2.1]
  decide

theorem early_any_download (evs : List Event) (h : ∀ e ∈ evs, e.isEarly = true) :
    evs.any Event.isDownload = false := by
  rw [List.any_eq_false]
  intro a ha
  rw [(isEarly_other a (h a ha)).2.2.2.2.2.2]
  decide

/-! ## The claims -/

/-- C1: in `create_device`, when platform discovery succeeds (its code is not
negative) and the GPU query answers `CL_DEVICE_NOT_FOUND`, a CPU device is
requested next on the same platform.  If that query succeeds, `create_device`
returns the CPU device and the process goes on; if it fails with a negative
code, the process exits with status 1 and no device is returned. -/
theorem create_device_gpu_fallback (B : Backend) (s : State)
    (hp : 0 ≤ B.clGetPlatformIDs.1)
    (hg : (B.clGetDeviceIDs DevType.CL_DEVICE_TYPE_GPU).1 = CL_DEVICE_NOT_FOUND) :
    ((B.clGetDeviceIDs DevType.CL_DEVICE_TYPE_CPU).1 = CL_SUCCESS →
      create_device B s = Res.ret (B.clGetDeviceIDs DevType.CL_DEVICE_TYPE_CPU).2
        { s with
          trace := s.trace ++ [Event.clGetPlatformIDs,
            Event.clGetDeviceIDs B.clGetPlatformIDs.2 DevType.CL_DEVICE_TYPE_GPU,
            Event.clGetDeviceIDs B.clGetPlatformIDs.2 DevType.CL_DEVICE_TYPE_CPU],
          stdout := s.stdout ++ [Out.lit "GPU not found\n"] }) ∧
    ((B.clGetDeviceIDs DevType.CL_DEVICE_TYPE_CPU).1 < 0 →
      create_device B s = Res.exit 1
        { s with
          trace := s.trace ++ [Event.clGetPlatformIDs,
            Event.clGetDeviceIDs B.clGetPlatformIDs.2 DevType.CL_DEVICE_TYPE_GPU,
            Event.clGetDeviceIDs B.clGetPlatformIDs.2 DevType.CL_DEVICE_TYPE_CPU],
          stdout := s.stdout ++ [Out.lit "GPU not found\n"],
          stderr := s.stderr ++ ["Couldn't access any devices"] }) := by
  have hp' : ¬ B.clGetPlatformIDs.1 < 0 := not_lt.mpr hp
  constructor
  · intro hc
    have hc' : ¬ (B.clGetDeviceIDs DevType.CL_DEVICE_TYPE_CPU).1 < 0 := by
      rw [hc]; decide
    rw [create_device_eq, if_neg hp', if_pos hg, if_neg hc', if_pos hc]
  · intro hc
    rw [create_device_eq, if_neg hp', if_pos hg, if_pos hc]

/-- C1 at `B_cpu` (no GPU, CPU device 9) and at `B_nodev` (no device at all). -/
theorem create_device_gpu_fallback_witness :
    create_device B_cpu State.initial = Res.ret 9
      { State.initial with
        trace := [Event.clGetPlatformIDs, Event.clGetDeviceIDs 1 DevType.CL_DEVICE_TYPE_GPU,
          Event.clGetDeviceIDs 1 DevType.CL_DEVICE_TYPE_CPU],
        stdout := [Out.lit "GPU not found\n"] } ∧
    create_device B_nodev State.initial = Res.exit 1
      { State.initial with
        trace := [Event.clGetPlatformIDs, Event.clGetDeviceIDs 1 DevType.CL_DEVICE_TYPE_GPU,
          Event.clGetDeviceIDs 1 DevType.CL_DEVICE_TYPE_CPU],
        stdout := [Out.lit "GPU not found\n"],
        stderr := ["Couldn't access any devices"] } :=
  ⟨(create_device_gpu_fallback B_cpu State.initial (by decide) (by decide)).1 (by decide),
   (create_device_gpu_fallback B_nodev State.initial (by decide) (by decide)).2 (by decide)⟩

/-- C2: whatever the handles are, `free_memory` issues the device-side
release calls in the order `bufV1`, `bufV2`, `bufV_out`, kernel, command
queue, program, context, each once, and after the context only the three
host arrays are freed; it always returns. -/
theorem free_memory_order (s : State) :
    free_memory s = Res.ret ()
      { s with trace := s.trace ++
        [Event.clReleaseMemObject Buf.bufV1 s.bufV1, Event.clReleaseMemObject Buf.bufV2 s.bufV2,
         Event.clReleaseMemObject Buf.bufV_out s.bufV_out, Event.clReleaseKernel s.kernel,
         Event.clReleaseCommandQueue s.queue, Event.clReleaseProgram s.program,
         Event.clReleaseContext s.context,
         Event.free HostPtr.v1, Event.free HostPtr.v2, Event.free HostPtr.v_out] } ∧
    ((free_memory s).state.trace.drop s.trace.length).filter Event.isRelease =
        [Event.clReleaseMemObject Buf.bufV1 s.bufV1, Event.clReleaseMemObject Buf.bufV2 s.bufV2,
         Event.clReleaseMemObject Buf.bufV_out s.bufV_out, Event.clReleaseKernel s.kernel,
         Event.clReleaseCommandQueue s.queue, Event.clReleaseProgram s.program,
         Event.clReleaseContext s.context] := by
  have h : free_memory s = Res.ret ()
      { s with trace := s.trace ++
        [Event.clReleaseMemObject Buf.bufV1 s.bufV1, Event.clReleaseMemObject Buf.bufV2 s.bufV2,
         Event.clReleaseMemObject Buf.bufV_out s.bufV_out, Event.clReleaseKernel s.kernel,
         Event.clReleaseCommandQueue s.queue, Event.clReleaseProgram s.program,
         Event.clReleaseContext s.context,
         Event.free HostPtr.v1, Event.free HostPtr.v2, Event.free HostPtr.v_out] } := by
    simp only [free_memory, bind_run, andThen_ret, call_run, getState_run, List.append_assoc,
      List.cons_append, List.nil_append]
  refine ⟨h, ?_⟩
  rw [h]
  simp only [Res.state, List.drop_left]
  rfl

/-- The two outcomes of `build_program` once the source file is open and the
program created: on a compile failure the bytes of the build log before its
first `0` are printed and the process exits with status 1; otherwise nothing
is printed and the program is returned. -/
theorem build_program_outcomes (B : Backend) (ctx dev : Handle) (f : String) (s : State)
    (src : List Nat) (hf : B.fopen f = some src) (hc : 0 ≤ B.clCreateProgramWithSource.1) :
    (B.clBuildProgram < 0 →
      build_program B ctx dev f s = Res.exit 1
        { s with
          err := B.clBuildProgram
          trace := s.trace ++ [Event.fopen f, Event.malloc HostPtr.program_buffer (src.length + 1),
            Event.clCreateProgramWithSource ctx src, Event.free HostPtr.program_buffer,
            Event.clBuildProgram B.clCreateProgramWithSource.2,
            Event.clGetProgramBuildInfo B.clCreateProgramWithSource.2 dev 0,
            Event.malloc HostPtr.program_log (B.build_log.length + 1),
            Event.clGetProgramBuildInfo B.clCreateProgramWithSource.2 dev (B.build_log.length + 1),
            Event.free HostPtr.program_log]
          stdout := s.stdout ++ [Out.s "%s\n" (B.build_log.takeWhile fun c => c != 0)] }) ∧
    (0 ≤ B.clBuildProgram →
      build_program B ctx dev f s = Res.ret B.clCreateProgramWithSource.2
        { s with
          err := B.clBuildProgram
          trace := s.trace ++ [Event.fopen f, Event.malloc HostPtr.program_buffer (src.length + 1),
            Event.clCreateProgramWithSource ctx src, Event.free HostPtr.program_buffer,
            Event.clBuildProgram B.clCreateProgramWithSource.2] }) := by
  have hc' : ¬ B.clCreateProgramWithSource.1 < 0 := not_lt.mpr hc
  constructor
  · intro hb
    simp only [build_program, bind_run, andThen_ret, andThen_exit, andThen_ite, pure_run, ite_run,
      call_run, printf_run, perror_run, exit_run, getState_run, set_err_run, hf, hc', hb,
      if_true, if_false, takeWhile_terminated, List.append_assoc, List.cons_append,
      List.nil_append]
  · intro hb
    have hb' : ¬ B.clBuildProgram < 0 := not_lt.mpr hb
    simp only [build_program, bind_run, andThen_ret, andThen_exit, andThen_ite, pure_run, ite_run,
      call_run, printf_run, perror_run, exit_run, getState_run, set_err_run, hf, hc', hb',
      if_false, List.append_assoc, List.cons_append, List.nil_append]

/-- The text of a build log that is a C string: what is printed of it. -/
theorem takeWhile_c_string (log text : List Nat) (h0 : 0 ∉ text)
    (hlog : log = text ++ [0] ∨ log = text) : (log.takeWhile fun c => c != 0) = text := by
  rcases hlog with h | h
  · rw [h, takeWhile_terminated, takeWhile_no_nul text h0]
  · rw [h, takeWhile_no_nul text h0]

/-- C9: in `build_program`, for every source file that can be opened and
every backend in which program creation succeeds, the build log being a C
string `text` (no `0` byte in it) that the backend reports with or without
its terminating `0` counted in `log_size`: if `clBuildProgram` returns a
negative code, the full log `text` is written to standard output, followed
by a newline, and the process then exits with status 1, no program being
returned; if compilation succeeds, nothing is printed and the program handle
is returned. -/
theorem build_program_full_log (B : Backend) (ctx dev : Handle) (f : String) (s : State)
    (src text : List Nat) (hf : B.fopen f = some src)
    (hc : 0 ≤ B.clCreateProgramWithSource.1) (h0 : 0 ∉ text)
    (hlog : B.build_log = text ++ [0] ∨ B.build_log = text) :
    (B.clBuildProgram < 0 →
      build_program B ctx dev f s = Res.exit 1
        { s with
          err := B.clBuildProgram
          trace := s.trace ++ [Event.fopen f, Event.malloc HostPtr.program_buffer (src.length + 1),
            Event.clCreateProgramWithSource ctx src, Event.free HostPtr.program_buffer,
            Event.clBuildProgram B.clCreateProgramWithSource.2,
            Event.clGetProgramBuildInfo B.clCreateProgramWithSource.2 dev 0,
            Event.malloc HostPtr.program_log (B.build_log.length + 1),
            Event.clGetProgramBuildInfo B.clCreateProgramWithSource.2 dev (B.build_log.length + 1),
            Event.free HostPtr.program_log]
          stdout := s.stdout ++ [Out.s "%s\n" text] }) ∧
    (0 ≤ B.clBuildProgram →
      build_program B ctx dev f s = Res.ret B.clCreateProgramWithSource.2
        { s with
          err := B.clBuildProgram
          trace := s.trace ++ [Event.fopen f, Event.malloc HostPtr.program_buffer (src.length + 1),
            Event.clCreateProgramWithSource ctx src, Event.free HostPtr.program_buffer,
            Event.clBuildProgram B.clCreateProgramWithSource.2] }) := by
  have h := build_program_outcomes B ctx dev f s src hf hc
  rw [takeWhile_c_string B.build_log text h0 hlog] at h
  exact h

/-- C9 at `B_buildfail`, whose log is the text `err` with its terminating `0`
(`log_size = 4`), and at `B_ok`, where compilation succeeds. -/
theorem build_program_full_log_witness :
    build_program B_buildfail 3 2 "./vector_ops_ocl.cl" State.initial = Res.exit 1
      { State.initial with
        err := -11
        trace := [Event.fopen "./vector_ops_ocl.cl", Event.malloc HostPtr.program_buffer 2,
          Event.clCreateProgramWithSource 3 [107], Event.free HostPtr.program_buffer,
          Event.clBuildProgram 4, Event.clGetProgramBuildInfo 4 2 0,
          Event.malloc HostPtr.program_log 5, Event.clGetProgramBuildInfo 4 2 5,
          Event.free HostPtr.program_log]
        stdout := [Out.s "%s\n" [101, 114, 114]] } ∧
    build_program B_ok 3 2 "./vector_ops_ocl.cl" State.initial = Res.ret 4
      { State.initial with
        trace := [Event.fopen "./vector_ops_ocl.cl", Event.malloc HostPtr.program_buffer 2,
          Event.clCreateProgramWithSource 3 [107], Event.free HostPtr.program_buffer,
          Event.clBuildProgram 4] } :=
  ⟨(build_program_full_log B_buildfail 3 2 "./vector_ops_ocl.cl" State.initial [107]
      [101, 114, 114] rfl (by decide) (by decide) (Or.inl rfl)).1 (by decide),
   (build_program_full_log B_ok 3 2 "./vector_ops_ocl.cl" State.initial [107] [] rfl
      (by decide) (by decide) (Or.inr rfl)).2 (by decide)⟩

/-- C6 (counterexample): the context is created, then the kernel source file
cannot be opened; the process exits with status 1 and the context acquired
before is never released. -/
theorem exit_leaks_context :
    (run B_nofile (some 3)).status = some 1 ∧
    Event.clCreateContext 2 ∈ (run B_nofile (some 3)).state.trace ∧
    (run B_nofile (some 3)).state.trace.filter Event.isRelease = [] := by
  decide

/-- C6 (amended): on every run that terminates on a failure path the exit
status is 1 and no device-side handle is released before the process
terminates; the release calls are issued only when `main` runs to its end,
and then each of the seven handles is released once.  (A run that stops in
`init` on a store outside its block has released nothing either.) -/
theorem exit_releases_nothing (B : Backend) (argv1 : Option Int) :
    (∀ c, (run B argv1).status = some c →
      c = 1 ∧ (run B argv1).state.trace.filter Event.isRelease = []) ∧
    ((run B argv1).returned = true →
      (run B argv1).state.trace.filter Event.isRelease =
        [Event.clReleaseMemObject Buf.bufV1 (run B argv1).state.bufV1,
         Event.clReleaseMemObject Buf.bufV2 (run B argv1).state.bufV2,
         Event.clReleaseMemObject Buf.bufV_out (run B argv1).state.bufV_out,
         Event.clReleaseKernel (run B argv1).state.kernel,
         Event.clReleaseCommandQueue (run B argv1).state.queue,
         Event.clReleaseProgram (run B argv1).state.program,
         Event.clReleaseContext (run B argv1).state.context]) ∧
    ((run B argv1).faulted = true →
      (run B argv1).state.trace.filter Event.isRelease = []) := by
  obtain ⟨s1, he, -, ⟨-, hrun⟩ | ⟨-, -, -, -, -, hrun | hrun⟩⟩ := run_outcome B argv1
  · rw [hrun]
    simp only [Res.status, Res.state, Res.returned, Res.faulted, early_filter_release _ he]
    refine ⟨?_, ?_, fun _ => trivial⟩
    · intro c hc
      cases hc
    · intro h
      cases h
  · rw [hrun]
    simp only [Res.status, Res.state, Res.returned, Res.faulted, early_filter_release _ he]
    refine ⟨?_, ?_, fun _ => trivial⟩
    · intro c hc
      cases hc
      exact ⟨rfl, trivial⟩
    · intro h
      cases h
  · rw [hrun]
    simp only [Res.status, Res.state, Res.returned, Res.faulted, after_pipeline, pipeline_tail,
      List.filter_append, early_filter_release _ he]
    refine ⟨?_, fun _ => rfl, ?_⟩
    · intro c hc
      cases hc
    · intro h
      cases h

/-- C6 (amended) at `B_nofile`: the run exits with status 1, nothing released. -/
theorem exit_releases_nothing_witness :
    (run B_nofile (some 3)).status = some 1 ∧
    ((1 : Int) = 1 ∧ (run B_nofile (some 3)).state.trace.filter Event.isRelease = []) :=
  ⟨by decide, (exit_releases_nothing B_nofile (some 3)).1 1 (by decide)⟩

/-- On every run that reaches the kernel enqueue, the `clSetKernelArg` calls
issued before it, and in the whole run, are exactly four, on the kernel that
is enqueued: index 0 with the scalar `SZ` and slot size `sizeof(int) = 4`,
index 1 with `bufV1`, index 2 with `bufV2`, index 3 with `bufV_out`.  Whether
the backend accepted them is not looked at. -/
theorem kernel_arg_calls (B : Backend) (argv1 : Option Int)
    (h : (run B argv1).state.trace.any Event.isEnqueue = true) :
    ((run B argv1).state.trace.takeWhile fun e => !e.isEnqueue).filterMap Event.binding? =
      [((run B argv1).state.kernel, 0, 4, ArgVal.SZ (element_count argv1)),
       ((run B argv1).state.kernel, 1, B.sizeof_cl_mem,
          ArgVal.mem Buf.bufV1 (B.clCreateBuffer Buf.bufV1)),
       ((run B argv1).state.kernel, 2, B.sizeof_cl_mem,
          ArgVal.mem Buf.bufV2 (B.clCreateBuffer Buf.bufV2)),
       ((run B argv1).state.kernel, 3, B.sizeof_cl_mem,
          ArgVal.mem Buf.bufV_out (B.clCreateBuffer Buf.bufV_out))] ∧
    (run B argv1).state.trace.filterMap Event.binding? =
      ((run B argv1).state.trace.takeWhile fun e => !e.isEnqueue).filterMap Event.binding? ∧
    (run B argv1).state.trace.filter Event.isEnqueue =
      [Event.clEnqueueNDRangeKernel (run B argv1).state.queue (run B argv1).state.kernel 1
        (to_size_t B (element_count argv1))] := by
  obtain ⟨s1, he, hSZ, ⟨-, hrun⟩ | ⟨-, -, -, -, -, hrun | hrun⟩⟩ := run_outcome B argv1
  · rw [hrun] at h
    simp only [Res.state, early_any_enqueue _ he] at h
    cases h
  · rw [hrun] at h
    simp only [Res.state, early_any_enqueue _ he] at h
    cases h
  · rw [hrun]
    simp only [Res.state, after_pipeline, List.takeWhile_append_of_pos (early_not_enqueue _ he),
      List.filterMap_append, List.filter_append, early_filterMap_binding _ he,
      early_filter_enqueue _ he, hSZ]
    exact ⟨rfl, rfl, rfl⟩

/-- C7: on the run of `B_argfail` with 3 elements the kernel enqueue is
reached and `main` returns `0`, although the backend rejected each of the
four `clSetKernelArg` calls issued before it: no index of the kernel is bound
when it is enqueued. -/
theorem unbound_kernel_enqueued :
    run B_argfail (some 3) = Res.ret 0 (run B_argfail (some 3)).state ∧
    (run B_argfail (some 3)).state.trace.filter Event.isEnqueue =
      [Event.clEnqueueNDRangeKernel 5 6 1 3] ∧
    ((run B_argfail (some 3)).state.trace.takeWhile fun e => !e.isEnqueue).filterMap
        Event.binding? =
      [(6, 0, 4, ArgVal.SZ 3), (6, 1, 8, ArgVal.mem Buf.bufV1 11),
       (6, 2, 8, ArgVal.mem Buf.bufV2 12), (6, 3, 8, ArgVal.mem Buf.bufV_out 13)] ∧
    kernel_args B_argfail
      ((run B_argfail (some 3)).state.trace.takeWhile fun e => !e.isEnqueue) = [] ∧
    kernel_args B_ok ((run B_ok (some 3)).state.trace.takeWhile fun e => !e.isEnqueue) =
      [(6, 0, 4, ArgVal.SZ 3), (6, 1, 8, ArgVal.mem Buf.bufV1 11),
       (6, 2, 8, ArgVal.mem Buf.bufV2 12), (6, 3, 8, ArgVal.mem Buf.bufV_out 13)] := by
  decide

theorem to_size_t_eq (B : Backend) (v : Int) (h0 : 0 ≤ v) (hlt : v.toNat < 2 ^ B.size_t_bits) :
    to_size_t B v = v.toNat := by
  have hv : v < (2 : Int) ^ B.size_t_bits := by
    have h : ((v.toNat : Nat) : Int) < ((2 ^ B.size_t_bits : Nat) : Int) := by
      exact_mod_cast hlt
    rw [Int.toNat_of_nonneg h0] at h
    exact_mod_cast h
  unfold to_size_t
  rw [Int.emod_eq_of_lt h0 hv]

/-- When the blocks hold the `SZ` elements, `SZ * sizeof(int)` did not wrap. -/
theorem fit_no_wrap (B : Backend) (SZ : Int) (h0 : 0 ≤ SZ) (hfit : arrays_fit B SZ) :
    4 * SZ.toNat < 2 ^ B.size_t_bits ∧ to_size_t B SZ = SZ.toNat ∧
    SZ_bytes B SZ = 4 * SZ.toNat := by
  have hpos : 0 < 2 ^ B.size_t_bits := Nat.two_pow_pos B.size_t_bits
  have hcap : init_capacity B HostPtr.v1 SZ ≤ SZ_bytes B SZ / 4 := by
    unfold init_capacity sizeof_int
    split_ifs
    · exact Nat.le_refl _
    · exact Nat.zero_le _
  have hb : SZ_bytes B SZ < 2 ^ B.size_t_bits := Nat.mod_lt _ hpos
  have h1 := hfit.1
  have h4 : 4 * SZ.toNat < 2 ^ B.size_t_bits := by
    generalize 2 ^ B.size_t_bits = m at hb
    omega
  have hlt : SZ.toNat < 2 ^ B.size_t_bits := by
    generalize 2 ^ B.size_t_bits = m at h4
    omega
  have ht := to_size_t_eq B SZ h0 hlt
  refine ⟨h4, ht, ?_⟩
  unfold SZ_bytes
  rw [ht, sizeof_int, Nat.mul_comm, Nat.mod_eq_of_lt h4]

/-- C10 (counterexample): on a platform with a 32-bit `size_t` and
`SZ = 2^30`, `SZ * sizeof(int)` wraps to 0: `init` asks `malloc` for 0 bytes
and its first store falls outside the block, so the host array `v1` does not
hold `SZ` integers. -/
theorem host_array_overrun :
    (0 : Int) ≤ element_count (some 1073741824) ∧
    SZ_bytes B_32 (element_count (some 1073741824)) = 0 ∧
    (run B_32 (some 1073741824)).faulted = true ∧
    (run B_32 (some 1073741824)).state.trace = [Event.malloc HostPtr.v1 0] ∧
    (run B_32 (some 1073741824)).state.v1.length = 0 := by
  decide

/-- C10 (amended): for every element count `SZ` with `0 ≤ SZ` such that the
three blocks `init` asks of `malloc` are granted and hold `SZ` integers (so
that `SZ * sizeof(int)` does not wrap in `size_t`), no store is made outside
a block; every byte size passed to a buffer allocation, an upload or the
download is the one value `SZ * sizeof(int) = 4 * SZ`; a run that returns
from `main` passes it six times (three allocations, two uploads, one
download); the kernel is enqueued over one dimension of global size `SZ`;
and the three host arrays hold `SZ` elements each, in blocks of `4 * SZ`
bytes. -/
theorem sizes_agree (B : Backend) (argv1 : Option Int)
    (h0 : 0 ≤ element_count argv1) (hfit : arrays_fit B (element_count argv1)) :
    (run B argv1).faulted = false ∧
    4 * (element_count argv1).toNat < 2 ^ B.size_t_bits ∧
    (∀ n ∈ (run B argv1).state.trace.filterMap Event.transfer_bytes?,
      n = 4 * (element_count argv1).toNat) ∧
    ((run B argv1).returned = true →
      (run B argv1).state.trace.filterMap Event.transfer_bytes? =
        List.replicate 6 (4 * (element_count argv1).toNat)) ∧
    (∀ g ∈ (run B argv1).state.trace.filterMap Event.global?,
      g = (1, (element_count argv1).toNat)) ∧
    ((run B argv1).returned = true →
      (run B argv1).state.trace.filterMap Event.global? = [(1, (element_count argv1).toNat)]) ∧
    (run B argv1).state.v1.length = (element_count argv1).toNat ∧
    (run B argv1).state.v2.length = (element_count argv1).toNat ∧
    (run B argv1).state.v_out.length = (element_count argv1).toNat ∧
    (run B argv1).state.trace.take 3 =
      [Event.malloc HostPtr.v1 (4 * (element_count argv1).toNat),
       Event.malloc HostPtr.v2 (4 * (element_count argv1).toNat),
       Event.malloc HostPtr.v_out (4 * (element_count argv1).toNat)] := by
  obtain ⟨hwrap, hts, hbytes⟩ := fit_no_wrap B (element_count argv1) h0 hfit
  obtain ⟨s1, he, hSZ, ⟨hnf, -⟩ | ⟨-, hl1, hl2, hl3, ⟨evs, ht⟩, hrun | hrun⟩⟩ :=
    run_outcome B argv1
  · exact absurd hfit hnf
  · rw [hrun]
    simp only [Res.state, Res.returned, Res.faulted, early_filterMap_bytes _ he,
      early_filterMap_global _ he]
    refine ⟨trivial, hwrap, ?_, ?_, ?_, ?_, hl1, hl2, hl3, ?_⟩
    · intro n hn
      cases hn
    · intro h
      cases h
    · intro g hg
      cases hg
    · intro h
      cases h
    · rw [ht, init_trace, hbytes]
      rfl
  · rw [hrun]
    simp only [Res.state, Res.returned, Res.faulted, after_pipeline, pipeline_tail,
      List.filterMap_append, early_filterMap_bytes _ he, early_filterMap_global _ he, hSZ,
      read_v_out_length, hbytes, hts]
    refine ⟨trivial, hwrap, ?_, fun _ => rfl, ?_, fun _ => rfl, hl1, hl2, hl3, ?_⟩
    · intro n hn
      simp only [Event.transfer_bytes?, List.filterMap_cons, List.filterMap_nil, List.nil_append,
        List.append_nil, List.mem_cons, List.not_mem_nil, or_false, or_self] at hn
      exact hn
    · intro g hg
      simp only [Event.global?, List.filterMap_cons, List.filterMap_nil, List.nil_append,
        List.append_nil, List.mem_cons, List.not_mem_nil, or_false, or_self] at hg
      exact hg
    · rw [ht, init_trace, hbytes]
      rfl

/-- C10 (amended) at `B_ok` with 3 elements: 12 bytes six times, global size 3. -/
theorem sizes_agree_witness :
    (0 : Int) ≤ element_count (some 3) ∧ arrays_fit B_ok (element_count (some 3)) ∧
    (run B_ok (some 3)).state.trace.filterMap Event.transfer_bytes? = [12, 12, 12, 12, 12, 12] ∧
    (run B_ok (some 3)).state.trace.filterMap Event.global? = [(1, 3)] ∧
    (run B_ok (some 3)).state.v1.length = 3 :=
  ⟨by decide, by decide,
   (sizes_agree B_ok (some 3) (by decide) (by decide)).2.2.2.1 (by decide),
   (sizes_agree B_ok (some 3) (by decide) (by decide)).2.2.2.2.2.1 (by decide),
   (sizes_agree B_ok (some 3) (by decide) (by decide)).2.2.2.2.2.2.1⟩

/-- C3: on the run of `B_ok` with 3 elements, which succeeds, the calls
between the `start` and the `stop` checkpoint are the kernel enqueue, the wait
and also the download of `bufV_out`: a buffer transfer is inside the timed
interval. -/
theorem timed_window_has_download :
    (run B_ok (some 3)).status = none ∧
    run B_ok (some 3) = Res.ret 0 (run B_ok (some 3)).state ∧
    timed_window (run B_ok (some 3)).state.trace =
      [Event.clEnqueueNDRangeKernel 5 6 1 3, Event.clWaitForEvents,
       Event.clEnqueueReadBuffer 5 Buf.bufV_out 13 12 HostPtr.v_out] ∧
    (timed_window (run B_ok (some 3)).state.trace).any Event.isTransfer = true := by
  decide

/-- C4: on the run of `B_argfail` with 3 elements, `clSetKernelArg` rejects
all four bindings with a negative code, yet `copy_kernel_args` does not exit:
the kernel is enqueued and `main` returns `0`. -/
theorem rejected_binding_goes_on :
    B_argfail.clSetKernelArg 0 < 0 ∧ B_argfail.clSetKernelArg 1 < 0 ∧
    B_argfail.clSetKernelArg 2 < 0 ∧ B_argfail.clSetKernelArg 3 < 0 ∧
    (run B_argfail (some 3)).status = none ∧
    (run B_argfail (some 3)).returned = true ∧
    (run B_argfail (some 3)).state.trace.filter Event.isEnqueue =
      [Event.clEnqueueNDRangeKernel 5 6 1 3] ∧
    (run B_argfail (some 3)).state.stderr = [] := by
  decide

/-- C5 (counterexample): on the run of `B_memfail` with 3 elements every
buffer allocation fails and every upload and the download are rejected, yet
the run goes on to bind the four arguments and enqueue the kernel, prints the
result and returns `0` from `main`. -/
theorem rejected_memory_goes_on :
    B_memfail.clCreateBuffer Buf.bufV1 = 0 ∧ B_memfail.clEnqueueWriteBuffer Buf.bufV1 < 0 ∧
    B_memfail.clEnqueueReadBuffer < 0 ∧
    run B_memfail (some 3) = Res.ret 0 (run B_memfail (some 3)).state ∧
    ((run B_memfail (some 3)).state.trace.filterMap Event.binding?).length = 4 ∧
    (run B_memfail (some 3)).state.trace.any Event.isEnqueue = true ∧
    (run B_memfail (some 3)).state.stdout.getLast? =
      some (Out.f "Kernel Execution Time: %f ms\n") := by
  decide

/-- C5 (amended): no result of the buffer allocations, the uploads or the
download is inspected.  `setup_kernel_memory` issues its five calls and
returns, whatever the backend answers; a run that reaches it therefore goes
on to argument binding (the four `clSetKernelArg` calls are issued); and a
run that reaches the download goes on to print the result and to release the
resources, and `main` returns `0`. -/
theorem memory_results_unchecked (B : Backend) (argv1 : Option Int) :
    (∀ s, setup_kernel_memory B s = Res.ret ()
      { s with
        bufV1 := B.clCreateBuffer Buf.bufV1
        bufV2 := B.clCreateBuffer Buf.bufV2
        bufV_out := B.clCreateBuffer Buf.bufV_out
        trace := s.trace ++
          [Event.clCreateBuffer Buf.bufV1 s.context (SZ_bytes B s.SZ),
           Event.clCreateBuffer Buf.bufV2 s.context (SZ_bytes B s.SZ),
           Event.clCreateBuffer Buf.bufV_out s.context (SZ_bytes B s.SZ),
           Event.clEnqueueWriteBuffer s.queue Buf.bufV1 (B.clCreateBuffer Buf.bufV1)
             (SZ_bytes B s.SZ) HostPtr.v1,
           Event.clEnqueueWriteBuffer s.queue Buf.bufV2 (B.clCreateBuffer Buf.bufV2)
             (SZ_bytes B s.SZ) HostPtr.v2] }) ∧
    ((run B argv1).state.trace.filterMap Event.transfer_bytes? ≠ [] →
      5 ≤ ((run B argv1).state.trace.filterMap Event.transfer_bytes?).length ∧
      ((run B argv1).state.trace.filterMap Event.binding?).length = 4) ∧
    ((run B argv1).state.trace.any Event.isDownload = true →
      run B argv1 = Res.ret 0 (run B argv1).state ∧
      (∃ pre, (run B argv1).state.stdout =
        pre ++ print_out (run B argv1).state.v_out (run B argv1).state.SZ ++
          [Out.f "Kernel Execution Time: %f ms\n"]) ∧
      ((run B argv1).state.trace.filter Event.isRelease).length = 7) := by
  refine ⟨?_, ?_, ?_⟩
  · intro s
    simp only [setup_kernel_memory, bind_run, andThen_ret, call_run, getState_run,
      modifyState_run, pure_run, List.append_assoc, List.cons_append, List.nil_append]
  · obtain ⟨s1, he, -, ⟨-, hrun⟩ | ⟨-, -, -, -, -, hrun | hrun⟩⟩ := run_outcome B argv1
    · rw [hrun]
      simp only [Res.state, early_filterMap_bytes _ he]
      intro h
      exact absurd rfl h
    · rw [hrun]
      simp only [Res.state, early_filterMap_bytes _ he]
      intro h
      exact absurd rfl h
    · rw [hrun]
      simp only [Res.state, after_pipeline, pipeline_tail, List.filterMap_append,
        early_filterMap_bytes _ he, early_filterMap_binding _ he]
      intro _
      exact ⟨Nat.le_succ 5, rfl⟩
  · obtain ⟨s1, he, -, ⟨-, hrun⟩ | ⟨-, -, -, -, -, hrun | hrun⟩⟩ := run_outcome B argv1
    · rw [hrun]
      simp only [Res.state, early_any_download _ he]
      intro h
      cases h
    · rw [hrun]
      simp only [Res.state, early_any_download _ he]
      intro h
      cases h
    · rw [hrun]
      intro _
      refine ⟨rfl, ⟨s1.stdout, ?_⟩, ?_⟩
      · simp only [Res.state, after_pipeline]
      · simp only [Res.state, after_pipeline, pipeline_tail, List.filter_append,
          early_filter_release _ he]
        rfl

/-- C5 (amended) at `B_memfail`: the download is reached and `main` returns `0`. -/
theorem memory_results_unchecked_witness :
    (run B_memfail (some 3)).state.trace.any Event.isDownload = true ∧
    run B_memfail (some 3) = Res.ret 0 (run B_memfail (some 3)).state ∧
    ((run B_memfail (some 3)).state.trace.filterMap Event.binding?).length = 4 :=
  ⟨by decide,
   ((memory_results_unchecked B_memfail (some 3)).2.2 (by decide)).1,
   ((memory_results_unchecked B_memfail (some 3)).2.1 (by decide)).2⟩

/-- C8 (counterexample): on the run of `B_ok` with 3 elements every backend
call succeeds, and the command queue is created after the program is built,
not before. -/
theorem queue_created_after_build :
    B_ok.all_succeed ∧ (run B_ok (some 3)).status = none ∧
    run B_ok (some 3) = Res.ret 0 (run B_ok (some 3)).state ∧
    Event.clCreateCommandQueue 3 2 ∈ (run B_ok (some 3)).state.trace ∧
    (run B_ok (some 3)).state.trace.indexOf (Event.clBuildProgram 4) <
      (run B_ok (some 3)).state.trace.indexOf (Event.clCreateCommandQueue 3 2) := by
  decide

/-- C8 (amended): on every run in which all backend calls succeed and the
three host arrays are allocated in full, `main` returns `0` and the calls
are, in order: the three host allocations; device selection (platform, GPU
query); context creation; program build from the source file; command-queue
creation; kernel creation; the three buffer allocations and the two uploads;
the four argument bindings; the `start` checkpoint; the kernel enqueue; the
wait; the download; the `stop` checkpoint; the seven releases and the three
host frees.  Context creation precedes the program build and queue creation
follows it. -/
theorem pipeline_order (B : Backend) (argv1 : Option Int) (h : B.all_succeed)
    (hfit : arrays_fit B (element_count argv1)) :
    ∃ src, B.fopen "./vector_ops_ocl.cl" = some src ∧
      run B argv1 = Res.ret 0 (run B argv1).state ∧
      (run B argv1).state.trace =
        init_trace B (element_count argv1) ++
        [Event.clGetPlatformIDs,
         Event.clGetDeviceIDs B.clGetPlatformIDs.2 DevType.CL_DEVICE_TYPE_GPU,
         Event.clCreateContext (B.clGetDeviceIDs DevType.CL_DEVICE_TYPE_GPU).2,
         Event.fopen "./vector_ops_ocl.cl",
         Event.malloc HostPtr.program_buffer (src.length + 1),
         Event.clCreateProgramWithSource B.clCreateContext.2 src,
         Event.free HostPtr.program_buffer,
         Event.clBuildProgram B.clCreateProgramWithSource.2,
         Event.clCreateCommandQueue B.clCreateContext.2
           (B.clGetDeviceIDs DevType.CL_DEVICE_TYPE_GPU).2,
         Event.clCreateKernel B.clCreateProgramWithSource.2 "vector_add_ocl"] ++
        pipeline_tail B (run B argv1).state := by
  obtain ⟨h1, h2, h3, h4, h5, h6, h7, h8, -⟩ := h
  obtain ⟨src, hsrc⟩ := Option.isSome_iff_exists.mp h4
  have n1 : ¬ B.clGetPlatformIDs.1 < 0 := by rw [h1]; decide
  have n2 : ¬ (B.clGetDeviceIDs DevType.CL_DEVICE_TYPE_GPU).1 = CL_DEVICE_NOT_FOUND := by
    rw [h2]; decide
  have n2' : ¬ (B.clGetDeviceIDs DevType.CL_DEVICE_TYPE_GPU).1 < 0 := by rw [h2]; decide
  have n3 : ¬ B.clCreateContext.1 < 0 := by rw [h3]; decide
  have n5 : ¬ B.clCreateProgramWithSource.1 < 0 := by rw [h5]; decide
  have n6 : ¬ B.clBuildProgram < 0 := by rw [h6]; decide
  have n7 : ¬ B.clCreateCommandQueue.1 < 0 := by rw [h7]; decide
  have n8 : ¬ B.clCreateKernel.1 < 0 := by rw [h8]; decide
  refine ⟨src, hsrc, ?_⟩
  rcases main_cases B argv1 State.initial hfit with ⟨c, s1, hd, hm⟩ | ⟨s1, hd, hm⟩
  · simp only [setup_openCL_device_context_queue_kernel, create_device_eq, build_program,
      bind_run, andThen_ret, andThen_exit, andThen_ite, pure_run, ite_run, call_run, printf_run,
      perror_run, exit_run, getState_run, modifyState_run, set_err_run, hsrc, n1, n2, n2', n3,
      n5, n6, n7, n8, h2, if_true, if_false] at hd
    cases hd
  · simp only [setup_openCL_device_context_queue_kernel, create_device_eq, build_program,
      bind_run, andThen_ret, andThen_exit, andThen_ite, pure_run, ite_run, call_run, printf_run,
      perror_run, exit_run, getState_run, modifyState_run, set_err_run, hsrc, n1, n2, n2', n3,
      n5, n6, n7, n8, h2, if_true, if_false] at hd
    have hrun : run B argv1 = Res.ret 0 (after_pipeline B s1) := hm
    rw [hrun]
    refine ⟨rfl, ?_⟩
    cases hd
    simp only [Res.state, after_pipeline, pipeline_tail, after_init, State.initial,
      element_count, List.append_assoc, List.cons_append, List.nil_append]

/-- C8 (amended) at `B_ok` with 3 elements. -/
theorem pipeline_order_witness :
    B_ok.all_succeed ∧ arrays_fit B_ok (element_count (some 3)) ∧
    ∃ src, B_ok.fopen "./vector_ops_ocl.cl" = some src ∧
      run B_ok (some 3) = Res.ret 0 (run B_ok (some 3)).state ∧
      (run B_ok (some 3)).state.trace =
        init_trace B_ok (element_count (some 3)) ++
        [Event.clGetPlatformIDs,
         Event.clGetDeviceIDs B_ok.clGetPlatformIDs.2 DevType.CL_DEVICE_TYPE_GPU,
         Event.clCreateContext (B_ok.clGetDeviceIDs DevType.CL_DEVICE_TYPE_GPU).2,
         Event.fopen "./vector_ops_ocl.cl",
         Event.malloc HostPtr.program_buffer (src.length + 1),
         Event.clCreateProgramWithSource B_ok.clCreateContext.2 src,
         Event.free HostPtr.program_buffer,
         Event.clBuildProgram B_ok.clCreateProgramWithSource.2,
         Event.clCreateCommandQueue B_ok.clCreateContext.2
           (B_ok.clGetDeviceIDs DevType.CL_DEVICE_TYPE_GPU).2,
         Event.clCreateKernel B_ok.clCreateProgramWithSource.2 "vector_add_ocl"] ++
        pipeline_tail B_ok (run B_ok (some 3)).state :=
  ⟨by decide, by decide, pipeline_order B_ok (some 3) (by decide) (by decide)⟩

end VectorOps
